import Mathlib

/-!
Verification development for the `demo-ocr-factura` repository
(`src/app.py`).  The deterministic core — the regex fallback extractor
`analyze_invoice_with_claude` (the `except` branch), `convert_date_format`,
`parse_amount`, the repeated confidence-normalization pattern and
`prepare_final_json` — is shallowly embedded below.  Python `str` values are
modelled as `List Char`; Python `float` results of `parse_amount` are
modelled as exact rationals (`ℚ`); Python dicts whose keys grow dynamically
(`confidence`, `reasoning`, and the payload of `prepare_final_json`) are
modelled as insertion-ordered association lists.
-/

/-! ### Character classes (ASCII, as used by CPython `re` and `str` here) -/

/-- ASCII decimal digit, the `\d` class of the patterns in `app.py`. -/
def isDig (c : Char) : Bool := 48 ≤ c.toNat && c.toNat ≤ 57

/-- ASCII whitespace, the `\s` class: space, tab, newline, CR, VT, FF. -/
def isWs (c : Char) : Bool :=
  c.toNat = 32 || c.toNat = 9 || c.toNat = 10 || c.toNat = 13 ||
  c.toNat = 11 || c.toNat = 12

/-- ASCII lower-casing, modelling `str.lower()` / `re.IGNORECASE` on the
ASCII letters actually exercised by the patterns of `app.py`. -/
def lowerChar (c : Char) : Char :=
  if 65 ≤ c.toNat ∧ c.toNat ≤ 90 then Char.ofNat (c.toNat + 32) else c

/-! ### Association lists modelling Python dicts -/

/-- Python dict assignment `d[k] = v`: replace the value at an existing key
in place, otherwise append the key at the end (insertion order). -/
def dictSet {α : Type} : List (String × α) → String → α → List (String × α)
  | [], k, v => [(k, v)]
  | (k0, v0) :: rest, k, v =>
      if k0 = k then (k, v) :: rest else (k0, v0) :: dictSet rest k v

/-- Python dict read `d.get(k)`: the stored value, if the key is present. -/
def dictGet {α : Type} : List (String × α) → String → Option α
  | [], _ => none
  | (k0, v) :: rest, k => if k0 = k then some v else dictGet rest k

/-! ### Small string helpers (Python `str` methods) -/

/-- Python `s.split(sep)` for a one-character separator. -/
def splitChar (sep : Char) : List Char → List (List Char)
  | [] => [[]]
  | c :: rest =>
      let r := splitChar sep rest
      if c = sep then [] :: r
      else
        match r with
        | h :: t => (c :: h) :: t
        | [] => [[c]]

/-- Python `str.zfill(w)`: left-pad with `'0'` to width `w`, keeping a
leading sign character in front of the padding. -/
def zfill (w : Nat) (s : List Char) : List Char :=
  match s with
  | c :: rest =>
      if c = '+' ∨ c = '-' then
        c :: (List.replicate (w - 1 - rest.length) '0' ++ rest)
      else List.replicate (w - s.length) '0' ++ s
  | [] => List.replicate w '0'

/-- Python `str.strip()` (whitespace on both ends, ASCII fragment). -/
def stripWs (s : List Char) : List Char :=
  ((s.dropWhile isWs).reverse.dropWhile isWs).reverse

/-- Value of a string of decimal digits (most significant first). -/
def natVal (s : List Char) : ℕ :=
  s.foldl (fun a c => 10 * a + (c.toNat - 48)) 0

/-- Python substring test `pat in s` (first argument is the needle). -/
def startsWith : List Char → List Char → Bool
  | [], _ => true
  | _ :: _, [] => false
  | a :: as, b :: bs => a = b && startsWith as bs

/-- Python substring test `pat in s`. -/
def containsSub (pat : List Char) : List Char → Bool
  | [] => startsWith pat []
  | c :: t => startsWith pat (c :: t) || containsSub pat t

/-! ### `convert_date_format` (src/app.py lines 554-560)

```python
def convert_date_format(date_str):
    try:
        day, month, year = date_str.split('/')
        return f"{year}-{month.zfill(2)}-{day.zfill(2)}"
    except:
        return date_str
```
The destructuring assignment raises (and hence the original string is
returned) exactly when the split does not yield three parts. -/

def convert_date_format (date_str : List Char) : List Char :=
  match splitChar '/' date_str with
  | [day, month, year] => year ++ '-' :: (zfill 2 month ++ '-' :: zfill 2 day)
  | _ => date_str

/-! ### `parse_amount` (src/app.py lines 563-573) and a model of `float()`

```python
def parse_amount(amount_str):
    try:
        cleaned = amount_str.replace('.', '').replace(',', '')
        if len(cleaned) >= 2:
            return float(cleaned[:-2] + '.' + cleaned[-2:])
        return float(cleaned)
    except:
        return 0.0
```
-/

/-- Exponent suffix of a float literal (after the `e`/`E`): optional sign
then a nonempty digit run. -/
def pyExp (m : ℚ) (s : List Char) : Option ℚ :=
  let p : Bool × List Char :=
    match s with
    | c :: r => if c = '+' then (false, r) else if c = '-' then (true, r) else (false, c :: r)
    | [] => (false, [])
  let ds := p.2.takeWhile isDig
  let rest := p.2.dropWhile isDig
  if ds = [] ∨ rest ≠ [] then none
  else some (if p.1 then m / 10 ^ natVal ds else m * 10 ^ natVal ds)

/-- Modelled from CPython `float(str)`, restricted to finite decimal
literals: optional surrounding whitespace, optional sign, digits with at
most one `'.'`, optional decimal exponent.  `inf`/`nan` and underscore
digit grouping are modelled as parse failures (`none`); no property below
depends on those forms.  The result is the exact decimal value, as a
rational. -/
def pyFloat (s : List Char) : Option ℚ :=
  let t0 := stripWs s
  let p : ℚ × List Char :=
    match t0 with
    | c :: r => if c = '+' then (1, r) else if c = '-' then (-1, r) else (1, c :: r)
    | [] => (1, [])
  let ip := p.2.takeWhile isDig
  let r1 := p.2.dropWhile isDig
  match r1 with
  | [] => if ip = [] then none else some (p.1 * natVal ip)
  | c :: r2 =>
      if c = '.' then
        let fp := r2.takeWhile isDig
        let r3 := r2.dropWhile isDig
        if ip = [] ∧ fp = [] then none
        else
          let m : ℚ := natVal ip + natVal fp / 10 ^ fp.length
          match r3 with
          | [] => some (p.1 * m)
          | c2 :: r4 =>
              if c2 = 'e' ∨ c2 = 'E' then (pyExp m r4).map (p.1 * ·) else none
      else if c = 'e' ∨ c = 'E' then
        if ip = [] then none else (pyExp (natVal ip) r2).map (p.1 * ·)
      else none

/-- The cleaning step `amount_str.replace('.', '').replace(',', '')`. -/
def cleanAmount (amount_str : List Char) : List Char :=
  amount_str.filter (fun c => !(c = '.' || c = ','))

/-- The `try` body of `parse_amount`: `none` models a raised exception. -/
def parse_amount_attempt (amount_str : List Char) : Option ℚ :=
  let cleaned := cleanAmount amount_str
  if 2 ≤ cleaned.length then
    pyFloat (cleaned.take (cleaned.length - 2) ++ '.' :: cleaned.drop (cleaned.length - 2))
  else pyFloat cleaned

/-- Full `parse_amount`: any failure is caught and becomes `0.0`. -/
def parse_amount (amount_str : List Char) : ℚ :=
  (parse_amount_attempt amount_str).getD 0

/-! ### Confidence normalization (the rule repeated at src/app.py lines
206, 214, 283-284, 306-307, 328-329, 353-354, 389, 410, 433-436, 513-514:
`conf if conf <= 1 else conf / 100`). -/

def normalize_confidence (c : ℚ) : ℚ := if c ≤ 1 then c else c / 100

/-! ### A backtracking regex engine (modelling CPython `re.search`)

The patterns of `app.py` use only: literals, character classes, `|`,
greedy `*` `+` `?` over character classes, bounded repetition, and one
capturing group each.  The engine below enumerates match outcomes in
exactly CPython's backtracking preference order (alternatives left to
right, quantifiers longest first), so the head of the returned list is the
match CPython reports; `reSearch` scans start positions left to right as
`re.search` does and returns group 1 of the first match. -/

inductive Re where
  | eps : Re
  | cls (p : Char → Bool) : Re
  | seq (a b : Re) : Re
  | alt (a b : Re) : Re
  | starCls (p : Char → Bool) : Re
  | group (r : Re) : Re

/-- Remaining-input lists after a greedy `p*`, longest consumption first. -/
def starDrops (p : Char → Bool) : List Char → List (List Char)
  | [] => [[]]
  | c :: s => if p c then starDrops p s ++ [c :: s] else [c :: s]

/-- All match outcomes of `r` against a front of `s`, in backtracking
preference order.  Each outcome is the remaining input paired with the
group-1 capture (if the group participated). -/
def reMatch : Re → List Char → List (List Char × Option (List Char))
  | .eps, s => [(s, none)]
  | .cls _, [] => []
  | .cls p, c :: s => if p c then [(s, none)] else []
  | .seq a b, s =>
      (reMatch a s).flatMap (fun x =>
        (reMatch b x.1).map (fun y => (y.1, x.2 <|> y.2)))
  | .alt a b, s => reMatch a s ++ reMatch b s
  | .starCls p, s => (starDrops p s).map (fun t => (t, none))
  | .group r, s =>
      (reMatch r s).map (fun x => (x.1, some (s.take (s.length - x.1.length))))

/-- Model of `re.search(pat, s)` returning `m.group(1)`.  (All patterns used below
have a single mandatory group, so the group is always bound on success;
the `getD []` default is never reached on them.) -/
def reSearch (r : Re) : List Char → Option (List Char)
  | [] =>
      match reMatch r [] with
      | (_, g) :: _ => some (g.getD [])
      | [] => none
  | c :: t =>
      match reMatch r (c :: t) with
      | (_, g) :: _ => some (g.getD [])
      | [] => reSearch r t

/-- Declarative language of a regex. -/
def Accepts : Re → List Char → Prop
  | .eps, s => s = []
  | .cls p, s => ∃ c, s = [c] ∧ p c = true
  | .seq a b, s => ∃ u v, s = u ++ v ∧ Accepts a u ∧ Accepts b v
  | .alt a b, s => Accepts a s ∨ Accepts b s
  | .starCls p, s => ∀ c ∈ s, p c = true
  | .group r, s => Accepts r s

/-- Possible group-1 captures: a capture always comes from some `group`
subterm and belongs to that subterm's language. -/
def CapAccepts : Re → List Char → Prop
  | .eps, _ => False
  | .cls _, _ => False
  | .seq a b, cap => CapAccepts a cap ∨ CapAccepts b cap
  | .alt a b, cap => CapAccepts a cap ∨ CapAccepts b cap
  | .starCls _, _ => False
  | .group r, cap => Accepts r cap

/-! ### Pattern constructors and the rule patterns of the fallback extractor

Case-insensitive rules (`re.IGNORECASE`) are modelled by matching a
lower-cased copy of the text against the lower-cased pattern; every such
rule's capture consists of digits and punctuation only, which lower-casing
does not change, so captures agree with CPython's (which are taken from the
original text). -/

def Re.chr (c : Char) : Re := .cls (fun x => x = c)

def Re.lit (s : List Char) : Re := s.foldr (fun c r => .seq (.chr c) r) .eps

def Re.opt (r : Re) : Re := .alt r .eps

def Re.plus (p : Char → Bool) : Re := .seq (.cls p) (.starCls p)

def repCls (p : Char → Bool) : Nat → Re
  | 0 => .eps
  | n + 1 => .seq (.cls p) (repCls p n)

/-- The class `[:\s]`. -/
def colonWs (c : Char) : Bool := c = ':' || isWs c

/-- The class `[°ro\.]` (from `N[°ro\.]+`). -/
def nroCls (c : Char) : Bool := c = '°' || c = 'r' || c = 'o' || c = '.'

/-- The class `[°º]`. -/
def ordCls (c : Char) : Bool := c = '°' || c = 'º'

/-- The class `[oó]` (from `Emisi[oó]n`). -/
def oAcc (c : Char) : Bool := c = 'o' || c = 'ó'

/-- The class `[\d,\.]`. -/
def amtCls (c : Char) : Bool := isDig c || c = ',' || c = '.'

/-- The class `[A-Z]`. -/
def upperCls (c : Char) : Bool := 65 ≤ c.toNat && c.toNat ≤ 90

/-- The class `[\sA-Z\.]`. -/
def nameCls (c : Char) : Bool := isWs c || upperCls c || c = '.'

/-- The fragment `\d{2}/\d{2}/\d{4}` (shared by the two date rules). -/
def dateGrp : Re :=
  .seq (repCls isDig 2) (.seq (.chr '/') (.seq (repCls isDig 2)
    (.seq (.chr '/') (repCls isDig 4))))

/-- Pattern `CUIT[:\s]+(\d{2}-\d{8}-\d{1})` (src/app.py line 54). -/
def cuitPat : Re :=
  .seq (.lit "CUIT".toList) (.seq (.plus colonWs)
    (.group (.seq (repCls isDig 2) (.seq (.chr '-') (.seq (repCls isDig 8)
      (.seq (.chr '-') (repCls isDig 1)))))))

/-- Pattern `(AMX ARGENTINA S\.A\.|[A-Z]{3,}[\sA-Z\.]+S\.A\.|[A-Z]{3,}[\sA-Z\.]+S\.R\.L\.)`
(src/app.py line 61). -/
def namePat : Re :=
  .group (.alt (.lit "AMX ARGENTINA S.A.".toList)
    (.alt
      (.seq (repCls upperCls 3) (.seq (.starCls upperCls)
        (.seq (.plus nameCls) (.lit "S.A.".toList))))
      (.seq (repCls upperCls 3) (.seq (.starCls upperCls)
        (.seq (.plus nameCls) (.lit "S.R.L.".toList))))))

/-- Pattern `Factura\s+N[°ro\.]+\s*[:\s]*(\d+-\d+)`, IGNORECASE (src/app.py line 68). -/
def invoicePat : Re :=
  .seq (.lit "factura".toList) (.seq (.plus isWs) (.seq (.chr 'n')
    (.seq (.plus nroCls) (.seq (.starCls isWs) (.seq (.starCls colonWs)
      (.group (.seq (.plus isDig) (.seq (.chr '-') (.plus isDig)))))))))

/-- Pattern `CODIGO\s+(\d{2})` (src/app.py line 78). -/
def codigoPat : Re :=
  .seq (.lit "CODIGO".toList) (.seq (.plus isWs) (.group (repCls isDig 2)))

/-- Pattern `C\.?A\.?E\.?\s*N[°º]?\s*[:\s]*(\d+)`, IGNORECASE (src/app.py line 87). -/
def caePat : Re :=
  .seq (.chr 'c') (.seq (.opt (.chr '.')) (.seq (.chr 'a')
    (.seq (.opt (.chr '.')) (.seq (.chr 'e') (.seq (.opt (.chr '.'))
      (.seq (.starCls isWs) (.seq (.chr 'n') (.seq (.opt (.cls ordCls))
        (.seq (.starCls isWs) (.seq (.starCls colonWs)
          (.group (.plus isDig))))))))))))

/-- Pattern `Fecha\s+de\s+Emisi[oó]n[:\s]+(\d{2}/\d{2}/\d{4})`, IGNORECASE
(src/app.py line 94). -/
def datePat : Re :=
  .seq (.lit "fecha".toList) (.seq (.plus isWs) (.seq (.lit "de".toList)
    (.seq (.plus isWs) (.seq (.lit "emisi".toList) (.seq (.cls oAcc)
      (.seq (.chr 'n') (.seq (.plus colonWs) (.group dateGrp))))))))

/-- Pattern `Vencimiento[:\s]+(\d{2}/\d{2}/\d{4})`, IGNORECASE (src/app.py line 101). -/
def duePat : Re :=
  .seq (.lit "vencimiento".toList) (.seq (.plus colonWs) (.group dateGrp))

/-- Pattern `Total\s+(?:Factura|a\s+Pagar)[:\s]*\$?\s*([\d,\.]+)`, IGNORECASE
(src/app.py line 109). -/
def totalPat : Re :=
  .seq (.lit "total".toList) (.seq (.plus isWs)
    (.seq (.alt (.lit "factura".toList)
      (.seq (.chr 'a') (.seq (.plus isWs) (.lit "pagar".toList))))
      (.seq (.starCls colonWs) (.seq (.opt (.chr '$'))
        (.seq (.starCls isWs) (.group (.plus amtCls)))))))

/-- Pattern `Impuesto\s+Interno[:\s]*\$?\s*([\d,\.]+)`, IGNORECASE (src/app.py line 115). -/
def ivaPat : Re :=
  .seq (.lit "impuesto".toList) (.seq (.plus isWs) (.seq (.lit "interno".toList)
    (.seq (.starCls colonWs) (.seq (.opt (.chr '$'))
      (.seq (.starCls isWs) (.group (.plus amtCls)))))))

/-- Pattern `Subtotal[:\s]*\$?\s*([\d,\.]+)`, IGNORECASE (src/app.py line 121). -/
def subtotalPat : Re :=
  .seq (.lit "subtotal".toList) (.seq (.starCls colonWs) (.seq (.opt (.chr '$'))
    (.seq (.starCls isWs) (.group (.plus amtCls)))))

/-! ### Number formatting used inside reasoning strings

Models Python's format spec `,.2f` (thousands separators, two decimals);
the rounding of the third decimal is modelled as round-half-up rather than
the float's round-half-even — no property below depends on these strings. -/

def chunk3 : List Char → List (List Char)
  | [] => []
  | a :: b :: c :: rest => [a, b, c] :: chunk3 rest
  | l => [l]

def commaGroup (ds : List Char) : List Char :=
  (((chunk3 ds.reverse).intersperse [',']).flatten).reverse

def fmtComma2 (q : ℚ) : List Char :=
  let n : ℤ := round (q * 100)
  let m := n.natAbs
  (if n < 0 then ['-'] else []) ++ commaGroup (Nat.toDigits 10 (m / 100)) ++
    '.' :: zfill 2 (Nat.toDigits 10 (m % 100))

/-- Lookup `code_map = {'01': 'A', '06': 'B', '11': 'C'}` with
`code_map.get(code, code)` (src/app.py lines 81-82): the InvoiceTypeMapper. -/
def invoice_code_map (code : List Char) : List Char :=
  if code = "01".toList then "A".toList
  else if code = "06".toList then "B".toList
  else if code = "11".toList then "C".toList
  else code

/-! ### The fallback extractor (src/app.py lines 32-139)

The `result` dict always carries every top-level key below; `None` values
are modelled as `none`, the nested `supplier` dict's keys (which appear
only on a match) as `Option` fields that start absent.  The untouched
`client` (stays `{}`) and `items` (stays `[]`) entries carry no data and
are represented only in the export payload (`prepare_final_json`). -/

structure Supplier where
  cuit : Option (List Char) := none
  name : Option (List Char) := none
deriving DecidableEq

structure FallbackResult where
  supplier : Supplier
  currency : List Char
  currencySymbol : List Char
  invoiceType : Option (List Char)
  invoiceNumber : Option (List Char)
  pointSale : Option (List Char)
  documentDate : Option (List Char)
  dueDate : Option (List Char)
  amount : ℚ
  iva : ℚ
  amountGrav : ℚ
  amountNoGrav : ℚ
  amountExen : ℚ
  cae : Option (List Char)
  confidence : List (String × ℚ)
  reasoning : List (String × List Char)
deriving DecidableEq

/-- The initializer of `result` (src/app.py lines 32-51). -/
def initResult : FallbackResult :=
  { supplier := {}, currency := "ARS".toList, currencySymbol := "$".toList,
    invoiceType := none, invoiceNumber := none, pointSale := none,
    documentDate := none, dueDate := none,
    amount := 0, iva := 0, amountGrav := 0, amountNoGrav := 0, amountExen := 0,
    cae := none, confidence := [], reasoning := [] }

/-- CUIT rule (src/app.py lines 54-58). -/
def step_cuit (text : List Char) (r : FallbackResult) : FallbackResult :=
  match reSearch cuitPat text with
  | some c =>
      { r with supplier := { r.supplier with cuit := some c },
               confidence := dictSet r.confidence "supplier_cuit" 0.98,
               reasoning := dictSet r.reasoning "supplier_cuit"
                 ("Encontré el CUIT '".toList ++ c ++
                  "' claramente marcado en el encabezado del documento.".toList) }
  | none => r

/-- Company-name rule (src/app.py lines 61-65); the captured name is
`.strip()`-ed before storing and re-used in the reasoning string. -/
def step_name (text : List Char) (r : FallbackResult) : FallbackResult :=
  match reSearch namePat text with
  | some c =>
      { r with supplier := { r.supplier with name := some (stripWs c) },
               confidence := dictSet r.confidence "supplier_name" 0.95,
               reasoning := dictSet r.reasoning "supplier_name"
                 ("Identifiqué la razón social '".toList ++ stripWs c ++
                  "' como el nombre legal de la empresa.".toList) }
  | none => r

/-- Invoice-number rule (src/app.py lines 68-75); derives `pointSale` when
the capture splits on `-` into exactly two parts. -/
def step_invoice (low : List Char) (r : FallbackResult) : FallbackResult :=
  match reSearch invoicePat low with
  | some c =>
      let parts := splitChar '-' c
      { r with invoiceNumber := some c,
               pointSale := if parts.length = 2 then some (parts.headD []) else r.pointSale,
               confidence := dictSet r.confidence "invoice_number" 0.98,
               reasoning := dictSet r.reasoning "invoice_number"
                 ("El número de factura '".toList ++ c ++
                  "' está en formato estándar argentino.".toList) }
  | none => r

/-- Invoice-type rule (src/app.py lines 78-84). -/
def step_type (text : List Char) (r : FallbackResult) : FallbackResult :=
  match reSearch codigoPat text with
  | some code =>
      { r with invoiceType := some (invoice_code_map code),
               confidence := dictSet r.confidence "invoice_type" 0.99,
               reasoning := dictSet r.reasoning "invoice_type"
                 ("El código AFIP ".toList ++ code ++
                  " corresponde a una Factura tipo ".toList ++
                  invoice_code_map code ++ ".".toList) }
  | none => r

/-- CAE rule (src/app.py lines 87-91). -/
def step_cae (low : List Char) (r : FallbackResult) : FallbackResult :=
  match reSearch caePat low with
  | some c =>
      { r with cae := some c,
               confidence := dictSet r.confidence "cae" 0.97,
               reasoning := dictSet r.reasoning "cae"
                 ("CAE ".toList ++ c ++
                  " es el código de autorización electrónica de AFIP.".toList) }
  | none => r

/-- Issue-date rule (src/app.py lines 94-99). -/
def step_docdate (low : List Char) (r : FallbackResult) : FallbackResult :=
  match reSearch datePat low with
  | some ds =>
      { r with documentDate := some (convert_date_format ds),
               confidence := dictSet r.confidence "document_date" 0.98,
               reasoning := dictSet r.reasoning "document_date"
                 ("Fecha de emisión ".toList ++ ds ++
                  " extraída del encabezado.".toList) }
  | none => r

/-- Due-date rule (src/app.py lines 101-106). -/
def step_due (low : List Char) (r : FallbackResult) : FallbackResult :=
  match reSearch duePat low with
  | some ds =>
      { r with dueDate := some (convert_date_format ds),
               confidence := dictSet r.confidence "due_date" 0.95,
               reasoning := dictSet r.reasoning "due_date"
                 ("Fecha de vencimiento ".toList ++ ds ++
                  " para el pago.".toList) }
  | none => r

/-- Total-amount rule (src/app.py lines 109-113). -/
def step_total (low : List Char) (r : FallbackResult) : FallbackResult :=
  match reSearch totalPat low with
  | some a =>
      { r with amount := parse_amount a,
               confidence := dictSet r.confidence "amount" 0.99,
               reasoning := dictSet r.reasoning "amount"
                 ("Total de $".toList ++ fmtComma2 (parse_amount a) ++
                  " extraído del pie de la factura.".toList) }
  | none => r

/-- Internal-tax rule (src/app.py lines 115-119). -/
def step_iva (low : List Char) (r : FallbackResult) : FallbackResult :=
  match reSearch ivaPat low with
  | some a =>
      { r with iva := parse_amount a,
               confidence := dictSet r.confidence "iva" 0.95,
               reasoning := dictSet r.reasoning "iva"
                 ("IVA de $".toList ++ fmtComma2 (parse_amount a) ++
                  " identificado en el desglose de impuestos.".toList) }
  | none => r

/-- Subtotal rule (src/app.py lines 121-125). -/
def step_subtotal (low : List Char) (r : FallbackResult) : FallbackResult :=
  match reSearch subtotalPat low with
  | some a =>
      { r with amountGrav := parse_amount a,
               confidence := dictSet r.confidence "amount_grav" 0.92,
               reasoning := dictSet r.reasoning "amount_grav"
                 ("Subtotal gravado de $".toList ++ fmtComma2 (parse_amount a) ++
                  ".".toList) }
  | none => r

/-- Currency detection (src/app.py lines 127-135): USD check first (on the
raw text for `"USD"`/`"US$"`, lower-cased for `"dollars"`), else ARS on
CUIT/AFIP markers, else leave the initial ARS defaults. -/
def step_currency (text low : List Char) (r : FallbackResult) : FallbackResult :=
  if containsSub "USD".toList text || containsSub "US$".toList text ||
     containsSub "dollars".toList low then
    { r with currency := "USD".toList, currencySymbol := "US$".toList,
             reasoning := dictSet r.reasoning "currency"
               "Detectado USD por la presencia de \"USD\" o \"US$\" en el documento".toList }
  else if containsSub "CUIT".toList text || containsSub "AFIP".toList text then
    { r with currency := "ARS".toList, currencySymbol := "$".toList,
             reasoning := dictSet r.reasoning "currency"
               "Detectado ARS por la presencia de CUIT y/o AFIP (factura argentina)".toList }
  else r

/-- Assignment `result['confidence']['currency'] = 0.85` (src/app.py line 137),
executed unconditionally after currency detection. -/
def step_confcurrency (r : FallbackResult) : FallbackResult :=
  { r with confidence := dictSet r.confidence "currency" 0.85 }

/-- The regex fallback branch of `analyze_invoice_with_claude`
(src/app.py lines 32-139): the deterministic FieldExtractor plus
CurrencyClassifier, applied in source order. -/
def analyze_invoice_with_claude (s : String) : FallbackResult :=
  let text := s.toList
  let low := text.map lowerChar
  step_confcurrency (step_currency text low (step_subtotal low (step_iva low
    (step_total low (step_due low (step_docdate low (step_cae low
      (step_type text (step_invoice low (step_name text
        (step_cuit text initResult)))))))))))

/-! ### `prepare_final_json` (src/app.py lines 524-551)

The input `data` dict (produced by either extraction path, or arbitrary)
and the export payload are modelled as association lists over a JSON value
type. -/

inductive JVal where
  | null : JVal
  | str (s : String) : JVal
  | num (q : ℚ) : JVal
  | bool (b : Bool) : JVal
  | obj (fields : List (String × JVal)) : JVal
  | arr (elems : List JVal) : JVal

/-- Python `data.get(k, d)`. -/
def jget (data : List (String × JVal)) (k : String) (d : JVal) : JVal :=
  (dictGet data k).getD d

/-- Function `prepare_final_json`: the fixed re-projection of a record into the
external system's schema.  `data.get(k)` with no default is `jget data k
.null`. -/
def prepare_final_json (data : List (String × JVal)) : List (String × JVal) :=
  [ ("supplier", jget data "supplier" (.obj [])),
    ("client", jget data "client" (.obj [])),
    ("currency", jget data "currency" (.str "ARS")),
    ("currencySymbol", jget data "currencySymbol" (.str "$")),
    ("invoiceType", jget data "invoiceType" .null),
    ("invoiceNumber", jget data "invoiceNumber" .null),
    ("pointSale", jget data "pointSale" .null),
    ("documentDate", jget data "documentDate" .null),
    ("dueDate", jget data "dueDate" .null),
    ("amount", jget data "amount" .null),
    ("iva", jget data "iva" .null),
    ("amountGrav", jget data "amountGrav" .null),
    ("amountNoGrav", jget data "amountNoGrav" .null),
    ("amountExen", jget data "amountExen" .null),
    ("cae", jget data "cae" .null),
    ("taxCode", jget data "taxCode" .null),
    ("exchangeType", .str "1"),
    ("active", .bool true),
    ("hasPo", .bool false),
    ("items", jget data "items" (.arr [])) ]

/-! ### Auxiliary definitions used only in claim statements -/

/-- Exchange of the two separator characters, for the `parse_amount`
symmetry claim. -/
def swapSep (c : Char) : Char :=
  if c = '.' then ',' else if c = ',' then '.' else c

/-- The document text of the end-to-end example of the spec (its five
trigger lines joined by newlines). -/
def exampleText : String :=
  "CUIT: 30-66328849-7\nFactura Nro. 1305-76453547\nCODIGO 06\nFecha de Emisión: 22/08/2023\nTotal a Pagar: $9,136.40"

/-- What "the field for confidence/reasoning key `k` is populated" means on
a fallback-extractor record: `Option` fields are `some`; for the three
amount fields (whose Python values carry no absent marker — a missed rule
leaves the initial `0`) populated-ness is witnessed by the rule having
matched; `currency` is always set (it defaults to `ARS`). -/
def populatedFor (s : String) (k : String) : Prop :=
  if k = "supplier_cuit" then ((analyze_invoice_with_claude s).supplier.cuit).isSome = true
  else if k = "supplier_name" then ((analyze_invoice_with_claude s).supplier.name).isSome = true
  else if k = "invoice_number" then ((analyze_invoice_with_claude s).invoiceNumber).isSome = true
  else if k = "invoice_type" then ((analyze_invoice_with_claude s).invoiceType).isSome = true
  else if k = "cae" then ((analyze_invoice_with_claude s).cae).isSome = true
  else if k = "document_date" then ((analyze_invoice_with_claude s).documentDate).isSome = true
  else if k = "due_date" then ((analyze_invoice_with_claude s).dueDate).isSome = true
  else if k = "amount" then (reSearch totalPat (s.toList.map lowerChar)).isSome = true
  else if k = "iva" then (reSearch ivaPat (s.toList.map lowerChar)).isSome = true
  else if k = "amount_grav" then (reSearch subtotalPat (s.toList.map lowerChar)).isSome = true
  else if k = "currency" then True
  else False

/-! ### Lookup after dict assignment -/

theorem dictGet_dictSet_same {α : Type} (l : List (String × α)) (k : String) (v : α) :
    dictGet (dictSet l k v) k = some v := by
  induction l with
  | nil => simp [dictSet, dictGet]
  | cons h t ih =>
      obtain ⟨k0, v0⟩ := h
      by_cases hk : k0 = k
      · simp [dictSet, dictGet, hk]
      · simp [dictSet, dictGet, hk, ih]

theorem dictGet_dictSet_other {α : Type} (l : List (String × α)) (k k' : String) (v : α)
    (h : k' ≠ k) : dictGet (dictSet l k v) k' = dictGet l k' := by
  induction l with
  | nil => simp [dictSet, dictGet, Ne.symm h]
  | cons hd t ih =>
      obtain ⟨k0, v0⟩ := hd
      by_cases hk : k0 = k
      · subst hk
        simp [dictSet, dictGet, Ne.symm h, h]
      · simp [dictSet, dictGet, hk, ih]

/-! ### Soundness of the regex engine -/

theorem starDrops_sound (p : Char → Bool) (s t : List Char)
    (h : t ∈ starDrops p s) : ∃ u, s = u ++ t ∧ ∀ c ∈ u, p c = true := by
  induction s generalizing t with
  | nil =>
      simp [starDrops] at h
      exact ⟨[], by simp [h]⟩
  | cons c s ih =>
      by_cases hc : p c = true
      · simp [starDrops, hc] at h
        rcases h with h | h
        · obtain ⟨u, hu, hall⟩ := ih t h
          exact ⟨c :: u, by simp [hu], by simpa [hc] using hall⟩
        · exact ⟨[], by simp [h], by simp⟩
      · simp [starDrops, hc] at h
        exact ⟨[], by simp [h], by simp⟩

theorem reMatch_sound (r : Re) (s : List Char) :
    ∀ rest g, (rest, g) ∈ reMatch r s →
      ∃ pre, s = pre ++ rest ∧ Accepts r pre ∧
        (∀ cap, g = some cap → CapAccepts r cap) := by
  induction r generalizing s with
  | eps =>
      intro rest g h
      simp [reMatch] at h
      exact ⟨[], by simp [h.1], by simp [Accepts], by simp [h.2]⟩
  | cls p =>
      intro rest g h
      match s with
      | [] => simp [reMatch] at h
      | c :: s' =>
          by_cases hc : p c = true
          · simp [reMatch, hc] at h
            refine ⟨[c], by simp [h.1], ⟨c, rfl, hc⟩, ?_⟩
            simp [h.2]
          · simp [reMatch, hc] at h
  | seq a b iha ihb =>
      intro rest g h
      simp only [reMatch, List.mem_flatMap, List.mem_map] at h
      obtain ⟨x, hx, y, hy, hxy⟩ := h
      obtain ⟨pre1, hs1, hacc1, hcap1⟩ := iha s x.1 x.2 hx
      obtain ⟨pre2, hs2, hacc2, hcap2⟩ := ihb x.1 y.1 y.2 hy
      injection hxy with h1 h2
      subst h1
      subst h2
      refine ⟨pre1 ++ pre2, ?_, ⟨pre1, pre2, rfl, hacc1, hacc2⟩, ?_⟩
      · rw [hs1, hs2, List.append_assoc]
      · intro cap hcap
        match hx2 : x.2 with
        | some v =>
            rw [hx2] at hcap
            simp at hcap
            exact Or.inl (hcap ▸ hcap1 v hx2)
        | none =>
            rw [hx2] at hcap
            simp at hcap
            exact Or.inr (hcap2 cap hcap)
  | alt a b iha ihb =>
      intro rest g h
      simp only [reMatch, List.mem_append] at h
      rcases h with h | h
      · obtain ⟨pre, hs, hacc, hcap⟩ := iha s rest g h
        exact ⟨pre, hs, Or.inl hacc, fun cap hc => Or.inl (hcap cap hc)⟩
      · obtain ⟨pre, hs, hacc, hcap⟩ := ihb s rest g h
        exact ⟨pre, hs, Or.inr hacc, fun cap hc => Or.inr (hcap cap hc)⟩
  | starCls p =>
      intro rest g h
      simp only [reMatch, List.mem_map] at h
      obtain ⟨t, ht, htg⟩ := h
      injection htg with h1 h2
      subst h1
      subst h2
      obtain ⟨u, hu, hall⟩ := starDrops_sound p s t ht
      exact ⟨u, hu, hall, fun cap hc => nomatch hc⟩
  | group r ih =>
      intro rest g h
      simp only [reMatch, List.mem_map] at h
      obtain ⟨x, hx, hxg⟩ := h
      obtain ⟨pre, hs, hacc, _⟩ := ih s x.1 x.2 hx
      injection hxg with h1 h2
      subst h1
      subst h2
      have hlen : s.length - x.1.length = pre.length := by
        rw [hs]; simp
      have htake : s.take (s.length - x.1.length) = pre := by
        rw [hlen, hs, List.take_left]
      refine ⟨pre, hs, hacc, ?_⟩
      intro cap hcap
      injection hcap with hc
      show Accepts r cap
      rw [← hc, htake]
      exact hacc

theorem reSearch_head_sound (r : Re) (s cap : List Char) (rest : List Char)
    (g : Option (List Char)) (tl : List (List Char × Option (List Char)))
    (hm : reMatch r s = (rest, g) :: tl) (h : g.getD [] = cap) :
    cap = [] ∨ CapAccepts r cap := by
  match hg : g with
  | none =>
      exact Or.inl h.symm
  | some c =>
      right
      obtain ⟨pre, _, _, hcap⟩ :=
        reMatch_sound r s rest (some c)
          (by rw [hm]; exact List.mem_cons_self _ _)
      have hc : cap = c := h.symm
      rw [hc]
      exact hcap c rfl

theorem reSearch_sound (r : Re) (s cap : List Char)
    (h : reSearch r s = some cap) : cap = [] ∨ CapAccepts r cap := by
  induction s with
  | nil =>
      rw [reSearch] at h
      match hm : reMatch r [] with
      | [] => rw [hm] at h; exact absurd h (by simp)
      | (rest, g) :: tl =>
          rw [hm] at h
          simp at h
          exact reSearch_head_sound r [] cap rest g tl hm h
  | cons c0 t ih =>
      rw [reSearch] at h
      match hm : reMatch r (c0 :: t) with
      | [] =>
          rw [hm] at h
          exact ih h
      | (rest, g) :: tl =>
          rw [hm] at h
          simp at h
          exact reSearch_head_sound r (c0 :: t) cap rest g tl hm h

/-! ### Which record fields each extractor step leaves untouched -/

theorem step_cuit_pres (t : List Char) (r : FallbackResult) :
    (step_cuit t r).supplier.name = r.supplier.name ∧
    (step_cuit t r).currency = r.currency ∧
    (step_cuit t r).currencySymbol = r.currencySymbol ∧
    (step_cuit t r).invoiceType = r.invoiceType ∧
    (step_cuit t r).invoiceNumber = r.invoiceNumber ∧
    (step_cuit t r).pointSale = r.pointSale ∧
    (step_cuit t r).documentDate = r.documentDate ∧
    (step_cuit t r).dueDate = r.dueDate ∧
    (step_cuit t r).amount = r.amount ∧
    (step_cuit t r).iva = r.iva ∧
    (step_cuit t r).amountGrav = r.amountGrav ∧
    (step_cuit t r).cae = r.cae := by
  cases h : reSearch cuitPat t <;> simp [step_cuit, h]

theorem step_name_pres (t : List Char) (r : FallbackResult) :
    (step_name t r).supplier.cuit = r.supplier.cuit ∧
    (step_name t r).currency = r.currency ∧
    (step_name t r).currencySymbol = r.currencySymbol ∧
    (step_name t r).invoiceType = r.invoiceType ∧
    (step_name t r).invoiceNumber = r.invoiceNumber ∧
    (step_name t r).pointSale = r.pointSale ∧
    (step_name t r).documentDate = r.documentDate ∧
    (step_name t r).dueDate = r.dueDate ∧
    (step_name t r).amount = r.amount ∧
    (step_name t r).iva = r.iva ∧
    (step_name t r).amountGrav = r.amountGrav ∧
    (step_name t r).cae = r.cae := by
  cases h : reSearch namePat t <;> simp [step_name, h]

theorem step_invoice_pres (t : List Char) (r : FallbackResult) :
    (step_invoice t r).supplier = r.supplier ∧
    (step_invoice t r).currency = r.currency ∧
    (step_invoice t r).currencySymbol = r.currencySymbol ∧
    (step_invoice t r).invoiceType = r.invoiceType ∧
    (step_invoice t r).documentDate = r.documentDate ∧
    (step_invoice t r).dueDate = r.dueDate ∧
    (step_invoice t r).amount = r.amount ∧
    (step_invoice t r).iva = r.iva ∧
    (step_invoice t r).amountGrav = r.amountGrav ∧
    (step_invoice t r).cae = r.cae := by
  cases h : reSearch invoicePat t <;> simp [step_invoice, h]

theorem step_type_pres (t : List Char) (r : FallbackResult) :
    (step_type t r).supplier = r.supplier ∧
    (step_type t r).currency = r.currency ∧
    (step_type t r).currencySymbol = r.currencySymbol ∧
    (step_type t r).invoiceNumber = r.invoiceNumber ∧
    (step_type t r).pointSale = r.pointSale ∧
    (step_type t r).documentDate = r.documentDate ∧
    (step_type t r).dueDate = r.dueDate ∧
    (step_type t r).amount = r.amount ∧
    (step_type t r).iva = r.iva ∧
    (step_type t r).amountGrav = r.amountGrav ∧
    (step_type t r).cae = r.cae := by
  cases h : reSearch codigoPat t <;> simp [step_type, h]

theorem step_cae_pres (t : List Char) (r : FallbackResult) :
    (step_cae t r).supplier = r.supplier ∧
    (step_cae t r).currency = r.currency ∧
    (step_cae t r).currencySymbol = r.currencySymbol ∧
    (step_cae t r).invoiceType = r.invoiceType ∧
    (step_cae t r).invoiceNumber = r.invoiceNumber ∧
    (step_cae t r).pointSale = r.pointSale ∧
    (step_cae t r).documentDate = r.documentDate ∧
    (step_cae t r).dueDate = r.dueDate ∧
    (step_cae t r).amount = r.amount ∧
    (step_cae t r).iva = r.iva ∧
    (step_cae t r).amountGrav = r.amountGrav := by
  cases h : reSearch caePat t <;> simp [step_cae, h]

theorem step_docdate_pres (t : List Char) (r : FallbackResult) :
    (step_docdate t r).supplier = r.supplier ∧
    (step_docdate t r).currency = r.currency ∧
    (step_docdate t r).currencySymbol = r.currencySymbol ∧
    (step_docdate t r).invoiceType = r.invoiceType ∧
    (step_docdate t r).invoiceNumber = r.invoiceNumber ∧
    (step_docdate t r).pointSale = r.pointSale ∧
    (step_docdate t r).dueDate = r.dueDate ∧
    (step_docdate t r).amount = r.amount ∧
    (step_docdate t r).iva = r.iva ∧
    (step_docdate t r).amountGrav = r.amountGrav ∧
    (step_docdate t r).cae = r.cae := by
  cases h : reSearch datePat t <;> simp [step_docdate, h]

theorem step_due_pres (t : List Char) (r : FallbackResult) :
    (step_due t r).supplier = r.supplier ∧
    (step_due t r).currency = r.currency ∧
    (step_due t r).currencySymbol = r.currencySymbol ∧
    (step_due t r).invoiceType = r.invoiceType ∧
    (step_due t r).invoiceNumber = r.invoiceNumber ∧
    (step_due t r).pointSale = r.pointSale ∧
    (step_due t r).documentDate = r.documentDate ∧
    (step_due t r).amount = r.amount ∧
    (step_due t r).iva = r.iva ∧
    (step_due t r).amountGrav = r.amountGrav ∧
    (step_due t r).cae = r.cae := by
  cases h : reSearch duePat t <;> simp [step_due, h]

theorem step_total_pres (t : List Char) (r : FallbackResult) :
    (step_total t r).supplier = r.supplier ∧
    (step_total t r).currency = r.currency ∧
    (step_total t r).currencySymbol = r.currencySymbol ∧
    (step_total t r).invoiceType = r.invoiceType ∧
    (step_total t r).invoiceNumber = r.invoiceNumber ∧
    (step_total t r).pointSale = r.pointSale ∧
    (step_total t r).documentDate = r.documentDate ∧
    (step_total t r).dueDate = r.dueDate ∧
    (step_total t r).iva = r.iva ∧
    (step_total t r).amountGrav = r.amountGrav ∧
    (step_total t r).cae = r.cae := by
  cases h : reSearch totalPat t <;> simp [step_total, h]

theorem step_iva_pres (t : List Char) (r : FallbackResult) :
    (step_iva t r).supplier = r.supplier ∧
    (step_iva t r).currency = r.currency ∧
    (step_iva t r).currencySymbol = r.currencySymbol ∧
    (step_iva t r).invoiceType = r.invoiceType ∧
    (step_iva t r).invoiceNumber = r.invoiceNumber ∧
    (step_iva t r).pointSale = r.pointSale ∧
    (step_iva t r).documentDate = r.documentDate ∧
    (step_iva t r).dueDate = r.dueDate ∧
    (step_iva t r).amount = r.amount ∧
    (step_iva t r).amountGrav = r.amountGrav ∧
    (step_iva t r).cae = r.cae := by
  cases h : reSearch ivaPat t <;> simp [step_iva, h]

theorem step_subtotal_pres (t : List Char) (r : FallbackResult) :
    (step_subtotal t r).supplier = r.supplier ∧
    (step_subtotal t r).currency = r.currency ∧
    (step_subtotal t r).currencySymbol = r.currencySymbol ∧
    (step_subtotal t r).invoiceType = r.invoiceType ∧
    (step_subtotal t r).invoiceNumber = r.invoiceNumber ∧
    (step_subtotal t r).pointSale = r.pointSale ∧
    (step_subtotal t r).documentDate = r.documentDate ∧
    (step_subtotal t r).dueDate = r.dueDate ∧
    (step_subtotal t r).amount = r.amount ∧
    (step_subtotal t r).iva = r.iva ∧
    (step_subtotal t r).cae = r.cae := by
  cases h : reSearch subtotalPat t <;> simp [step_subtotal, h]

theorem step_currency_pres (t l : List Char) (r : FallbackResult) :
    (step_currency t l r).supplier = r.supplier ∧
    (step_currency t l r).invoiceType = r.invoiceType ∧
    (step_currency t l r).invoiceNumber = r.invoiceNumber ∧
    (step_currency t l r).pointSale = r.pointSale ∧
    (step_currency t l r).documentDate = r.documentDate ∧
    (step_currency t l r).dueDate = r.dueDate ∧
    (step_currency t l r).amount = r.amount ∧
    (step_currency t l r).iva = r.iva ∧
    (step_currency t l r).amountGrav = r.amountGrav ∧
    (step_currency t l r).cae = r.cae ∧
    (step_currency t l r).confidence = r.confidence := by
  unfold step_currency
  split_ifs <;> simp

theorem step_confcurrency_pres (r : FallbackResult) :
    (step_confcurrency r).supplier = r.supplier ∧
    (step_confcurrency r).currency = r.currency ∧
    (step_confcurrency r).currencySymbol = r.currencySymbol ∧
    (step_confcurrency r).invoiceType = r.invoiceType ∧
    (step_confcurrency r).invoiceNumber = r.invoiceNumber ∧
    (step_confcurrency r).pointSale = r.pointSale ∧
    (step_confcurrency r).documentDate = r.documentDate ∧
    (step_confcurrency r).dueDate = r.dueDate ∧
    (step_confcurrency r).amount = r.amount ∧
    (step_confcurrency r).iva = r.iva ∧
    (step_confcurrency r).amountGrav = r.amountGrav ∧
    (step_confcurrency r).cae = r.cae ∧
    (step_confcurrency r).reasoning = r.reasoning := by
  simp [step_confcurrency]

/-! ### Effect of each step on the `confidence` dict (per key) -/

theorem step_cuit_conf (t : List Char) (r : FallbackResult) (k : String) :
    dictGet (step_cuit t r).confidence k =
      if k = "supplier_cuit" then
        (match reSearch cuitPat t with
         | some _ => some (0.98 : ℚ)
         | none => dictGet r.confidence k)
      else dictGet r.confidence k := by
  cases h : reSearch cuitPat t
  · simp [step_cuit, h]
  · by_cases hk : k = "supplier_cuit"
    · subst hk; simp [step_cuit, h, dictGet_dictSet_same]
    · simp [step_cuit, h, hk, dictGet_dictSet_other _ _ _ _ hk]

theorem step_name_conf (t : List Char) (r : FallbackResult) (k : String) :
    dictGet (step_name t r).confidence k =
      if k = "supplier_name" then
        (match reSearch namePat t with
         | some _ => some (0.95 : ℚ)
         | none => dictGet r.confidence k)
      else dictGet r.confidence k := by
  cases h : reSearch namePat t
  · simp [step_name, h]
  · by_cases hk : k = "supplier_name"
    · subst hk; simp [step_name, h, dictGet_dictSet_same]
    · simp [step_name, h, hk, dictGet_dictSet_other _ _ _ _ hk]

theorem step_invoice_conf (t : List Char) (r : FallbackResult) (k : String) :
    dictGet (step_invoice t r).confidence k =
      if k = "invoice_number" then
        (match reSearch invoicePat t with
         | some _ => some (0.98 : ℚ)
         | none => dictGet r.confidence k)
      else dictGet r.confidence k := by
  cases h : reSearch invoicePat t
  · simp [step_invoice, h]
  · by_cases hk : k = "invoice_number"
    · subst hk; simp [step_invoice, h, dictGet_dictSet_same]
    · simp [step_invoice, h, hk, dictGet_dictSet_other _ _ _ _ hk]

theorem step_type_conf (t : List Char) (r : FallbackResult) (k : String) :
    dictGet (step_type t r).confidence k =
      if k = "invoice_type" then
        (match reSearch codigoPat t with
         | some _ => some (0.99 : ℚ)
         | none => dictGet r.confidence k)
      else dictGet r.confidence k := by
  cases h : reSearch codigoPat t
  · simp [step_type, h]
  · by_cases hk : k = "invoice_type"
    · subst hk; simp [step_type, h, dictGet_dictSet_same]
    · simp [step_type, h, hk, dictGet_dictSet_other _ _ _ _ hk]

theorem step_cae_conf (t : List Char) (r : FallbackResult) (k : String) :
    dictGet (step_cae t r).confidence k =
      if k = "cae" then
        (match reSearch caePat t with
         | some _ => some (0.97 : ℚ)
         | none => dictGet r.confidence k)
      else dictGet r.confidence k := by
  cases h : reSearch caePat t
  · simp [step_cae, h]
  · by_cases hk : k = "cae"
    · subst hk; simp [step_cae, h, dictGet_dictSet_same]
    · simp [step_cae, h, hk, dictGet_dictSet_other _ _ _ _ hk]

theorem step_docdate_conf (t : List Char) (r : FallbackResult) (k : String) :
    dictGet (step_docdate t r).confidence k =
      if k = "document_date" then
        (match reSearch datePat t with
         | some _ => some (0.98 : ℚ)
         | none => dictGet r.confidence k)
      else dictGet r.confidence k := by
  cases h : reSearch datePat t
  · simp [step_docdate, h]
  · by_cases hk : k = "document_date"
    · subst hk; simp [step_docdate, h, dictGet_dictSet_same]
    · simp [step_docdate, h, hk, dictGet_dictSet_other _ _ _ _ hk]

theorem step_due_conf (t : List Char) (r : FallbackResult) (k : String) :
    dictGet (step_due t r).confidence k =
      if k = "due_date" then
        (match reSearch duePat t with
         | some _ => some (0.95 : ℚ)
         | none => dictGet r.confidence k)
      else dictGet r.confidence k := by
  cases h : reSearch duePat t
  · simp [step_due, h]
  · by_cases hk : k = "due_date"
    · subst hk; simp [step_due, h, dictGet_dictSet_same]
    · simp [step_due, h, hk, dictGet_dictSet_other _ _ _ _ hk]

theorem step_total_conf (t : List Char) (r : FallbackResult) (k : String) :
    dictGet (step_total t r).confidence k =
      if k = "amount" then
        (match reSearch totalPat t with
         | some _ => some (0.99 : ℚ)
         | none => dictGet r.confidence k)
      else dictGet r.confidence k := by
  cases h : reSearch totalPat t
  · simp [step_total, h]
  · by_cases hk : k = "amount"
    · subst hk; simp [step_total, h, dictGet_dictSet_same]
    · simp [step_total, h, hk, dictGet_dictSet_other _ _ _ _ hk]

theorem step_iva_conf (t : List Char) (r : FallbackResult) (k : String) :
    dictGet (step_iva t r).confidence k =
      if k = "iva" then
        (match reSearch ivaPat t with
         | some _ => some (0.95 : ℚ)
         | none => dictGet r.confidence k)
      else dictGet r.confidence k := by
  cases h : reSearch ivaPat t
  · simp [step_iva, h]
  · by_cases hk : k = "iva"
    · subst hk; simp [step_iva, h, dictGet_dictSet_same]
    · simp [step_iva, h, hk, dictGet_dictSet_other _ _ _ _ hk]

theorem step_subtotal_conf (t : List Char) (r : FallbackResult) (k : String) :
    dictGet (step_subtotal t r).confidence k =
      if k = "amount_grav" then
        (match reSearch subtotalPat t with
         | some _ => some (0.92 : ℚ)
         | none => dictGet r.confidence k)
      else dictGet r.confidence k := by
  cases h : reSearch subtotalPat t
  · simp [step_subtotal, h]
  · by_cases hk : k = "amount_grav"
    · subst hk; simp [step_subtotal, h, dictGet_dictSet_same]
    · simp [step_subtotal, h, hk, dictGet_dictSet_other _ _ _ _ hk]

theorem step_confcurrency_conf (r : FallbackResult) (k : String) :
    dictGet (step_confcurrency r).confidence k =
      if k = "currency" then some (0.85 : ℚ) else dictGet r.confidence k := by
  by_cases hk : k = "currency"
  · subst hk; simp [step_confcurrency, dictGet_dictSet_same]
  · simp [step_confcurrency, hk, dictGet_dictSet_other _ _ _ _ hk]

/-! ### Effect of each step on the `reasoning` dict (key presence) -/

theorem step_cuit_reas (t : List Char) (r : FallbackResult) (k : String) :
    (dictGet (step_cuit t r).reasoning k).isSome =
      if k = "supplier_cuit" then
        ((reSearch cuitPat t).isSome || (dictGet r.reasoning k).isSome)
      else (dictGet r.reasoning k).isSome := by
  cases h : reSearch cuitPat t
  · simp [step_cuit, h]
  · by_cases hk : k = "supplier_cuit"
    · subst hk; simp [step_cuit, h, dictGet_dictSet_same]
    · simp [step_cuit, h, hk, dictGet_dictSet_other _ _ _ _ hk]

theorem step_name_reas (t : List Char) (r : FallbackResult) (k : String) :
    (dictGet (step_name t r).reasoning k).isSome =
      if k = "supplier_name" then
        ((reSearch namePat t).isSome || (dictGet r.reasoning k).isSome)
      else (dictGet r.reasoning k).isSome := by
  cases h : reSearch namePat t
  · simp [step_name, h]
  · by_cases hk : k = "supplier_name"
    · subst hk; simp [step_name, h, dictGet_dictSet_same]
    · simp [step_name, h, hk, dictGet_dictSet_other _ _ _ _ hk]

theorem step_invoice_reas (t : List Char) (r : FallbackResult) (k : String) :
    (dictGet (step_invoice t r).reasoning k).isSome =
      if k = "invoice_number" then
        ((reSearch invoicePat t).isSome || (dictGet r.reasoning k).isSome)
      else (dictGet r.reasoning k).isSome := by
  cases h : reSearch invoicePat t
  · simp [step_invoice, h]
  · by_cases hk : k = "invoice_number"
    · subst hk; simp [step_invoice, h, dictGet_dictSet_same]
    · simp [step_invoice, h, hk, dictGet_dictSet_other _ _ _ _ hk]

theorem step_type_reas (t : List Char) (r : FallbackResult) (k : String) :
    (dictGet (step_type t r).reasoning k).isSome =
      if k = "invoice_type" then
        ((reSearch codigoPat t).isSome || (dictGet r.reasoning k).isSome)
      else (dictGet r.reasoning k).isSome := by
  cases h : reSearch codigoPat t
  · simp [step_type, h]
  · by_cases hk : k = "invoice_type"
    · subst hk; simp [step_type, h, dictGet_dictSet_same]
    · simp [step_type, h, hk, dictGet_dictSet_other _ _ _ _ hk]

theorem step_cae_reas (t : List Char) (r : FallbackResult) (k : String) :
    (dictGet (step_cae t r).reasoning k).isSome =
      if k = "cae" then
        ((reSearch caePat t).isSome || (dictGet r.reasoning k).isSome)
      else (dictGet r.reasoning k).isSome := by
  cases h : reSearch caePat t
  · simp [step_cae, h]
  · by_cases hk : k = "cae"
    · subst hk; simp [step_cae, h, dictGet_dictSet_same]
    · simp [step_cae, h, hk, dictGet_dictSet_other _ _ _ _ hk]

theorem step_docdate_reas (t : List Char) (r : FallbackResult) (k : String) :
    (dictGet (step_docdate t r).reasoning k).isSome =
      if k = "document_date" then
        ((reSearch datePat t).isSome || (dictGet r.reasoning k).isSome)
      else (dictGet r.reasoning k).isSome := by
  cases h : reSearch datePat t
  · simp [step_docdate, h]
  · by_cases hk : k = "document_date"
    · subst hk; simp [step_docdate, h, dictGet_dictSet_same]
    · simp [step_docdate, h, hk, dictGet_dictSet_other _ _ _ _ hk]

theorem step_due_reas (t : List Char) (r : FallbackResult) (k : String) :
    (dictGet (step_due t r).reasoning k).isSome =
      if k = "due_date" then
        ((reSearch duePat t).isSome || (dictGet r.reasoning k).isSome)
      else (dictGet r.reasoning k).isSome := by
  cases h : reSearch duePat t
  · simp [step_due, h]
  · by_cases hk : k = "due_date"
    · subst hk; simp [step_due, h, dictGet_dictSet_same]
    · simp [step_due, h, hk, dictGet_dictSet_other _ _ _ _ hk]

theorem step_total_reas (t : List Char) (r : FallbackResult) (k : String) :
    (dictGet (step_total t r).reasoning k).isSome =
      if k = "amount" then
        ((reSearch totalPat t).isSome || (dictGet r.reasoning k).isSome)
      else (dictGet r.reasoning k).isSome := by
  cases h : reSearch totalPat t
  · simp [step_total, h]
  · by_cases hk : k = "amount"
    · subst hk; simp [step_total, h, dictGet_dictSet_same]
    · simp [step_total, h, hk, dictGet_dictSet_other _ _ _ _ hk]

theorem step_iva_reas (t : List Char) (r : FallbackResult) (k : String) :
    (dictGet (step_iva t r).reasoning k).isSome =
      if k = "iva" then
        ((reSearch ivaPat t).isSome || (dictGet r.reasoning k).isSome)
      else (dictGet r.reasoning k).isSome := by
  cases h : reSearch ivaPat t
  · simp [step_iva, h]
  · by_cases hk : k = "iva"
    · subst hk; simp [step_iva, h, dictGet_dictSet_same]
    · simp [step_iva, h, hk, dictGet_dictSet_other _ _ _ _ hk]

theorem step_subtotal_reas (t : List Char) (r : FallbackResult) (k : String) :
    (dictGet (step_subtotal t r).reasoning k).isSome =
      if k = "amount_grav" then
        ((reSearch subtotalPat t).isSome || (dictGet r.reasoning k).isSome)
      else (dictGet r.reasoning k).isSome := by
  cases h : reSearch subtotalPat t
  · simp [step_subtotal, h]
  · by_cases hk : k = "amount_grav"
    · subst hk; simp [step_subtotal, h, dictGet_dictSet_same]
    · simp [step_subtotal, h, hk, dictGet_dictSet_other _ _ _ _ hk]

theorem step_currency_reas (t l : List Char) (r : FallbackResult) (k : String) :
    (dictGet (step_currency t l r).reasoning k).isSome =
      if k = "currency" then
        ((containsSub "USD".toList t || containsSub "US$".toList t ||
            containsSub "dollars".toList l) ||
         (containsSub "CUIT".toList t || containsSub "AFIP".toList t) ||
         (dictGet r.reasoning k).isSome)
      else (dictGet r.reasoning k).isSome := by
  by_cases hk : k = "currency"
  · subst hk
    rw [if_pos rfl]
    unfold step_currency
    split_ifs with h1 h2
    · simp only [dictGet_dictSet_same, Option.isSome_some, h1, Bool.true_or]
    · simp only [dictGet_dictSet_same, Option.isSome_some, h2, Bool.true_or,
        Bool.or_true]
    · rw [Bool.not_eq_true] at h1 h2
      simp only [h1, h2, Bool.false_or]
  · rw [if_neg hk]
    unfold step_currency
    split_ifs <;> simp [dictGet_dictSet_other _ _ _ _ hk]

/-! ### Closed-form characterizations of the assembled record

(`s.data` is definitionally `s.toList`.) -/

theorem analyze_cuit (s : String) :
    (analyze_invoice_with_claude s).supplier.cuit = reSearch cuitPat s.data := by
  unfold analyze_invoice_with_claude
  simp only [step_confcurrency_pres, step_currency_pres, step_subtotal_pres,
    step_iva_pres, step_total_pres, step_due_pres, step_docdate_pres,
    step_cae_pres, step_type_pres, step_invoice_pres, step_name_pres]
  cases h : reSearch cuitPat s.data <;> simp [step_cuit, h, initResult]

theorem analyze_name (s : String) :
    (analyze_invoice_with_claude s).supplier.name =
      (reSearch namePat s.data).map stripWs := by
  unfold analyze_invoice_with_claude
  simp only [step_confcurrency_pres, step_currency_pres, step_subtotal_pres,
    step_iva_pres, step_total_pres, step_due_pres, step_docdate_pres,
    step_cae_pres, step_type_pres, step_invoice_pres]
  cases h : reSearch namePat s.data <;>
    simp [step_name, h, step_cuit_pres, initResult]

theorem analyze_invoiceNumber (s : String) :
    (analyze_invoice_with_claude s).invoiceNumber =
      reSearch invoicePat (s.data.map lowerChar) := by
  unfold analyze_invoice_with_claude
  simp only [step_confcurrency_pres, step_currency_pres, step_subtotal_pres,
    step_iva_pres, step_total_pres, step_due_pres, step_docdate_pres,
    step_cae_pres, step_type_pres]
  cases h : reSearch invoicePat (s.data.map lowerChar) <;>
    simp [step_invoice, h, step_name_pres, step_cuit_pres, initResult]

theorem analyze_pointSale (s : String) :
    (analyze_invoice_with_claude s).pointSale =
      (match reSearch invoicePat (s.data.map lowerChar) with
       | some c =>
           if (splitChar '-' c).length = 2 then some ((splitChar '-' c).headD [])
           else none
       | none => none) := by
  unfold analyze_invoice_with_claude
  simp only [step_confcurrency_pres, step_currency_pres, step_subtotal_pres,
    step_iva_pres, step_total_pres, step_due_pres, step_docdate_pres,
    step_cae_pres, step_type_pres]
  cases h : reSearch invoicePat (s.data.map lowerChar) <;>
    simp [step_invoice, h, step_name_pres, step_cuit_pres, initResult]

theorem analyze_invoiceType (s : String) :
    (analyze_invoice_with_claude s).invoiceType =
      (reSearch codigoPat s.data).map invoice_code_map := by
  unfold analyze_invoice_with_claude
  simp only [step_confcurrency_pres, step_currency_pres, step_subtotal_pres,
    step_iva_pres, step_total_pres, step_due_pres, step_docdate_pres,
    step_cae_pres]
  cases h : reSearch codigoPat s.data <;>
    simp [step_type, h, step_invoice_pres, step_name_pres, step_cuit_pres,
      initResult]

theorem analyze_cae (s : String) :
    (analyze_invoice_with_claude s).cae =
      reSearch caePat (s.data.map lowerChar) := by
  unfold analyze_invoice_with_claude
  simp only [step_confcurrency_pres, step_currency_pres, step_subtotal_pres,
    step_iva_pres, step_total_pres, step_due_pres, step_docdate_pres]
  cases h : reSearch caePat (s.data.map lowerChar) <;>
    simp [step_cae, h, step_type_pres, step_invoice_pres, step_name_pres,
      step_cuit_pres, initResult]

theorem analyze_documentDate (s : String) :
    (analyze_invoice_with_claude s).documentDate =
      (reSearch datePat (s.data.map lowerChar)).map convert_date_format := by
  unfold analyze_invoice_with_claude
  simp only [step_confcurrency_pres, step_currency_pres, step_subtotal_pres,
    step_iva_pres, step_total_pres, step_due_pres]
  cases h : reSearch datePat (s.data.map lowerChar) <;>
    simp [step_docdate, h, step_cae_pres, step_type_pres, step_invoice_pres,
      step_name_pres, step_cuit_pres, initResult]

theorem analyze_dueDate (s : String) :
    (analyze_invoice_with_claude s).dueDate =
      (reSearch duePat (s.data.map lowerChar)).map convert_date_format := by
  unfold analyze_invoice_with_claude
  simp only [step_confcurrency_pres, step_currency_pres, step_subtotal_pres,
    step_iva_pres, step_total_pres]
  cases h : reSearch duePat (s.data.map lowerChar) <;>
    simp [step_due, h, step_docdate_pres, step_cae_pres, step_type_pres,
      step_invoice_pres, step_name_pres, step_cuit_pres, initResult]

theorem analyze_amount (s : String) :
    (analyze_invoice_with_claude s).amount =
      ((reSearch totalPat (s.data.map lowerChar)).map parse_amount).getD 0 := by
  unfold analyze_invoice_with_claude
  simp only [step_confcurrency_pres, step_currency_pres, step_subtotal_pres,
    step_iva_pres]
  cases h : reSearch totalPat (s.data.map lowerChar) <;>
    simp [step_total, h, step_due_pres, step_docdate_pres, step_cae_pres,
      step_type_pres, step_invoice_pres, step_name_pres, step_cuit_pres,
      initResult]

theorem analyze_iva (s : String) :
    (analyze_invoice_with_claude s).iva =
      ((reSearch ivaPat (s.data.map lowerChar)).map parse_amount).getD 0 := by
  unfold analyze_invoice_with_claude
  simp only [step_confcurrency_pres, step_currency_pres, step_subtotal_pres]
  cases h : reSearch ivaPat (s.data.map lowerChar) <;>
    simp [step_iva, h, step_total_pres, step_due_pres, step_docdate_pres,
      step_cae_pres, step_type_pres, step_invoice_pres, step_name_pres,
      step_cuit_pres, initResult]

theorem analyze_amountGrav (s : String) :
    (analyze_invoice_with_claude s).amountGrav =
      ((reSearch subtotalPat (s.data.map lowerChar)).map parse_amount).getD 0 := by
  unfold analyze_invoice_with_claude
  simp only [step_confcurrency_pres, step_currency_pres]
  cases h : reSearch subtotalPat (s.data.map lowerChar) <;>
    simp [step_subtotal, h, step_iva_pres, step_total_pres, step_due_pres,
      step_docdate_pres, step_cae_pres, step_type_pres, step_invoice_pres,
      step_name_pres, step_cuit_pres, initResult]

theorem analyze_currency (s : String) :
    (analyze_invoice_with_claude s).currency =
      (if (containsSub "USD".toList s.data || containsSub "US$".toList s.data ||
            containsSub "dollars".toList (s.data.map lowerChar)) = true
       then "USD".toList else "ARS".toList) := by
  unfold analyze_invoice_with_claude
  simp only [step_confcurrency_pres]
  unfold step_currency
  simp only [String.toList]
  split_ifs with h1 h2
  · simp
  · simp
  · simp only [step_subtotal_pres, step_iva_pres, step_total_pres,
      step_due_pres, step_docdate_pres, step_cae_pres, step_type_pres,
      step_invoice_pres, step_name_pres, step_cuit_pres]
    simp [initResult]

theorem analyze_currencySymbol (s : String) :
    (analyze_invoice_with_claude s).currencySymbol =
      (if (containsSub "USD".toList s.data || containsSub "US$".toList s.data ||
            containsSub "dollars".toList (s.data.map lowerChar)) = true
       then "US$".toList else "$".toList) := by
  unfold analyze_invoice_with_claude
  simp only [step_confcurrency_pres]
  unfold step_currency
  simp only [String.toList]
  split_ifs with h1 h2
  · simp
  · simp
  · simp only [step_subtotal_pres, step_iva_pres, step_total_pres,
      step_due_pres, step_docdate_pres, step_cae_pres, step_type_pres,
      step_invoice_pres, step_name_pres, step_cuit_pres]
    simp [initResult]

/-! ### Closed-form characterizations of the `confidence` dict -/

theorem analyze_conf_cuit (s : String) :
    dictGet (analyze_invoice_with_claude s).confidence "supplier_cuit" =
      (reSearch cuitPat s.data).map (fun _ => (0.98 : ℚ)) := by
  unfold analyze_invoice_with_claude
  simp only [step_confcurrency_conf, step_currency_pres, step_subtotal_conf,
    step_iva_conf, step_total_conf, step_due_conf, step_docdate_conf,
    step_cae_conf, step_type_conf, step_invoice_conf, step_name_conf,
    step_cuit_conf]
  cases h : reSearch cuitPat s.data <;> simp [h, initResult, dictGet]

theorem analyze_conf_name (s : String) :
    dictGet (analyze_invoice_with_claude s).confidence "supplier_name" =
      (reSearch namePat s.data).map (fun _ => (0.95 : ℚ)) := by
  unfold analyze_invoice_with_claude
  simp only [step_confcurrency_conf, step_currency_pres, step_subtotal_conf,
    step_iva_conf, step_total_conf, step_due_conf, step_docdate_conf,
    step_cae_conf, step_type_conf, step_invoice_conf, step_name_conf,
    step_cuit_conf]
  cases h : reSearch namePat s.data <;> simp [h, initResult, dictGet]

theorem analyze_conf_invoice (s : String) :
    dictGet (analyze_invoice_with_claude s).confidence "invoice_number" =
      (reSearch invoicePat (s.data.map lowerChar)).map (fun _ => (0.98 : ℚ)) := by
  unfold analyze_invoice_with_claude
  simp only [step_confcurrency_conf, step_currency_pres, step_subtotal_conf,
    step_iva_conf, step_total_conf, step_due_conf, step_docdate_conf,
    step_cae_conf, step_type_conf, step_invoice_conf, step_name_conf,
    step_cuit_conf]
  cases h : reSearch invoicePat (s.data.map lowerChar) <;>
    simp [h, initResult, dictGet]

theorem analyze_conf_type (s : String) :
    dictGet (analyze_invoice_with_claude s).confidence "invoice_type" =
      (reSearch codigoPat s.data).map (fun _ => (0.99 : ℚ)) := by
  unfold analyze_invoice_with_claude
  simp only [step_confcurrency_conf, step_currency_pres, step_subtotal_conf,
    step_iva_conf, step_total_conf, step_due_conf, step_docdate_conf,
    step_cae_conf, step_type_conf, step_invoice_conf, step_name_conf,
    step_cuit_conf]
  cases h : reSearch codigoPat s.data <;> simp [h, initResult, dictGet]

theorem analyze_conf_cae (s : String) :
    dictGet (analyze_invoice_with_claude s).confidence "cae" =
      (reSearch caePat (s.data.map lowerChar)).map (fun _ => (0.97 : ℚ)) := by
  unfold analyze_invoice_with_claude
  simp only [step_confcurrency_conf, step_currency_pres, step_subtotal_conf,
    step_iva_conf, step_total_conf, step_due_conf, step_docdate_conf,
    step_cae_conf, step_type_conf, step_invoice_conf, step_name_conf,
    step_cuit_conf]
  cases h : reSearch caePat (s.data.map lowerChar) <;>
    simp [h, initResult, dictGet]

theorem analyze_conf_docdate (s : String) :
    dictGet (analyze_invoice_with_claude s).confidence "document_date" =
      (reSearch datePat (s.data.map lowerChar)).map (fun _ => (0.98 : ℚ)) := by
  unfold analyze_invoice_with_claude
  simp only [step_confcurrency_conf, step_currency_pres, step_subtotal_conf,
    step_iva_conf, step_total_conf, step_due_conf, step_docdate_conf,
    step_cae_conf, step_type_conf, step_invoice_conf, step_name_conf,
    step_cuit_conf]
  cases h : reSearch datePat (s.data.map lowerChar) <;>
    simp [h, initResult, dictGet]

theorem analyze_conf_due (s : String) :
    dictGet (analyze_invoice_with_claude s).confidence "due_date" =
      (reSearch duePat (s.data.map lowerChar)).map (fun _ => (0.95 : ℚ)) := by
  unfold analyze_invoice_with_claude
  simp only [step_confcurrency_conf, step_currency_pres, step_subtotal_conf,
    step_iva_conf, step_total_conf, step_due_conf, step_docdate_conf,
    step_cae_conf, step_type_conf, step_invoice_conf, step_name_conf,
    step_cuit_conf]
  cases h : reSearch duePat (s.data.map lowerChar) <;>
    simp [h, initResult, dictGet]

theorem analyze_conf_amount (s : String) :
    dictGet (analyze_invoice_with_claude s).confidence "amount" =
      (reSearch totalPat (s.data.map lowerChar)).map (fun _ => (0.99 : ℚ)) := by
  unfold analyze_invoice_with_claude
  simp only [step_confcurrency_conf, step_currency_pres, step_subtotal_conf,
    step_iva_conf, step_total_conf, step_due_conf, step_docdate_conf,
    step_cae_conf, step_type_conf, step_invoice_conf, step_name_conf,
    step_cuit_conf]
  cases h : reSearch totalPat (s.data.map lowerChar) <;>
    simp [h, initResult, dictGet]

theorem analyze_conf_iva (s : String) :
    dictGet (analyze_invoice_with_claude s).confidence "iva" =
      (reSearch ivaPat (s.data.map lowerChar)).map (fun _ => (0.95 : ℚ)) := by
  unfold analyze_invoice_with_claude
  simp only [step_confcurrency_conf, step_currency_pres, step_subtotal_conf,
    step_iva_conf, step_total_conf, step_due_conf, step_docdate_conf,
    step_cae_conf, step_type_conf, step_invoice_conf, step_name_conf,
    step_cuit_conf]
  cases h : reSearch ivaPat (s.data.map lowerChar) <;>
    simp [h, initResult, dictGet]

theorem analyze_conf_grav (s : String) :
    dictGet (analyze_invoice_with_claude s).confidence "amount_grav" =
      (reSearch subtotalPat (s.data.map lowerChar)).map (fun _ => (0.92 : ℚ)) := by
  unfold analyze_invoice_with_claude
  simp only [step_confcurrency_conf, step_currency_pres, step_subtotal_conf,
    step_iva_conf, step_total_conf, step_due_conf, step_docdate_conf,
    step_cae_conf, step_type_conf, step_invoice_conf, step_name_conf,
    step_cuit_conf]
  cases h : reSearch subtotalPat (s.data.map lowerChar) <;>
    simp [h, initResult, dictGet]

theorem analyze_conf_currency (s : String) :
    dictGet (analyze_invoice_with_claude s).confidence "currency" =
      some (0.85 : ℚ) := by
  unfold analyze_invoice_with_claude
  simp only [step_confcurrency_conf]
  simp

/-! ### Closed-form characterizations of `reasoning`-key presence -/

theorem analyze_reas_cuit (s : String) :
    (dictGet (analyze_invoice_with_claude s).reasoning "supplier_cuit").isSome =
      (reSearch cuitPat s.data).isSome := by
  unfold analyze_invoice_with_claude
  simp only [step_confcurrency_pres, step_currency_reas, step_subtotal_reas,
    step_iva_reas, step_total_reas, step_due_reas, step_docdate_reas,
    step_cae_reas, step_type_reas, step_invoice_reas, step_name_reas,
    step_cuit_reas]
  cases h : reSearch cuitPat s.data <;> simp [h, initResult, dictGet]

theorem analyze_reas_name (s : String) :
    (dictGet (analyze_invoice_with_claude s).reasoning "supplier_name").isSome =
      (reSearch namePat s.data).isSome := by
  unfold analyze_invoice_with_claude
  simp only [step_confcurrency_pres, step_currency_reas, step_subtotal_reas,
    step_iva_reas, step_total_reas, step_due_reas, step_docdate_reas,
    step_cae_reas, step_type_reas, step_invoice_reas, step_name_reas,
    step_cuit_reas]
  cases h : reSearch namePat s.data <;> simp [h, initResult, dictGet]

theorem analyze_reas_invoice (s : String) :
    (dictGet (analyze_invoice_with_claude s).reasoning "invoice_number").isSome =
      (reSearch invoicePat (s.data.map lowerChar)).isSome := by
  unfold analyze_invoice_with_claude
  simp only [step_confcurrency_pres, step_currency_reas, step_subtotal_reas,
    step_iva_reas, step_total_reas, step_due_reas, step_docdate_reas,
    step_cae_reas, step_type_reas, step_invoice_reas, step_name_reas,
    step_cuit_reas]
  cases h : reSearch invoicePat (s.data.map lowerChar) <;>
    simp [h, initResult, dictGet]

theorem analyze_reas_type (s : String) :
    (dictGet (analyze_invoice_with_claude s).reasoning "invoice_type").isSome =
      (reSearch codigoPat s.data).isSome := by
  unfold analyze_invoice_with_claude
  simp only [step_confcurrency_pres, step_currency_reas, step_subtotal_reas,
    step_iva_reas, step_total_reas, step_due_reas, step_docdate_reas,
    step_cae_reas, step_type_reas, step_invoice_reas, step_name_reas,
    step_cuit_reas]
  cases h : reSearch codigoPat s.data <;> simp [h, initResult, dictGet]

theorem analyze_reas_cae (s : String) :
    (dictGet (analyze_invoice_with_claude s).reasoning "cae").isSome =
      (reSearch caePat (s.data.map lowerChar)).isSome := by
  unfold analyze_invoice_with_claude
  simp only [step_confcurrency_pres, step_currency_reas, step_subtotal_reas,
    step_iva_reas, step_total_reas, step_due_reas, step_docdate_reas,
    step_cae_reas, step_type_reas, step_invoice_reas, step_name_reas,
    step_cuit_reas]
  cases h : reSearch caePat (s.data.map lowerChar) <;>
    simp [h, initResult, dictGet]

theorem analyze_reas_docdate (s : String) :
    (dictGet (analyze_invoice_with_claude s).reasoning "document_date").isSome =
      (reSearch datePat (s.data.map lowerChar)).isSome := by
  unfold analyze_invoice_with_claude
  simp only [step_confcurrency_pres, step_currency_reas, step_subtotal_reas,
    step_iva_reas, step_total_reas, step_due_reas, step_docdate_reas,
    step_cae_reas, step_type_reas, step_invoice_reas, step_name_reas,
    step_cuit_reas]
  cases h : reSearch datePat (s.data.map lowerChar) <;>
    simp [h, initResult, dictGet]

theorem analyze_reas_due (s : String) :
    (dictGet (analyze_invoice_with_claude s).reasoning "due_date").isSome =
      (reSearch duePat (s.data.map lowerChar)).isSome := by
  unfold analyze_invoice_with_claude
  simp only [step_confcurrency_pres, step_currency_reas, step_subtotal_reas,
    step_iva_reas, step_total_reas, step_due_reas, step_docdate_reas,
    step_cae_reas, step_type_reas, step_invoice_reas, step_name_reas,
    step_cuit_reas]
  cases h : reSearch duePat (s.data.map lowerChar) <;>
    simp [h, initResult, dictGet]

theorem analyze_reas_amount (s : String) :
    (dictGet (analyze_invoice_with_claude s).reasoning "amount").isSome =
      (reSearch totalPat (s.data.map lowerChar)).isSome := by
  unfold analyze_invoice_with_claude
  simp only [step_confcurrency_pres, step_currency_reas, step_subtotal_reas,
    step_iva_reas, step_total_reas, step_due_reas, step_docdate_reas,
    step_cae_reas, step_type_reas, step_invoice_reas, step_name_reas,
    step_cuit_reas]
  cases h : reSearch totalPat (s.data.map lowerChar) <;>
    simp [h, initResult, dictGet]

theorem analyze_reas_iva (s : String) :
    (dictGet (analyze_invoice_with_claude s).reasoning "iva").isSome =
      (reSearch ivaPat (s.data.map lowerChar)).isSome := by
  unfold analyze_invoice_with_claude
  simp only [step_confcurrency_pres, step_currency_reas, step_subtotal_reas,
    step_iva_reas, step_total_reas, step_due_reas, step_docdate_reas,
    step_cae_reas, step_type_reas, step_invoice_reas, step_name_reas,
    step_cuit_reas]
  cases h : reSearch ivaPat (s.data.map lowerChar) <;>
    simp [h, initResult, dictGet]

theorem analyze_reas_grav (s : String) :
    (dictGet (analyze_invoice_with_claude s).reasoning "amount_grav").isSome =
      (reSearch subtotalPat (s.data.map lowerChar)).isSome := by
  unfold analyze_invoice_with_claude
  simp only [step_confcurrency_pres, step_currency_reas, step_subtotal_reas,
    step_iva_reas, step_total_reas, step_due_reas, step_docdate_reas,
    step_cae_reas, step_type_reas, step_invoice_reas, step_name_reas,
    step_cuit_reas]
  cases h : reSearch subtotalPat (s.data.map lowerChar) <;>
    simp [h, initResult, dictGet]

/-- Keys other than the eleven the fallback extractor can write never appear
in `confidence` or `reasoning`. -/
theorem analyze_other_keys (s : String) (k : String)
    (h1 : k ≠ "supplier_cuit") (h2 : k ≠ "supplier_name")
    (h3 : k ≠ "invoice_number") (h4 : k ≠ "invoice_type") (h5 : k ≠ "cae")
    (h6 : k ≠ "document_date") (h7 : k ≠ "due_date") (h8 : k ≠ "amount")
    (h9 : k ≠ "iva") (h10 : k ≠ "amount_grav") (h11 : k ≠ "currency") :
    dictGet (analyze_invoice_with_claude s).confidence k = none ∧
      dictGet (analyze_invoice_with_claude s).reasoning k = none := by
  constructor
  · unfold analyze_invoice_with_claude
    simp only [step_confcurrency_conf, step_currency_pres, step_subtotal_conf,
      step_iva_conf, step_total_conf, step_due_conf, step_docdate_conf,
      step_cae_conf, step_type_conf, step_invoice_conf, step_name_conf,
      step_cuit_conf]
    simp [h1, h2, h3, h4, h5, h6, h7, h8, h9, h10, h11, initResult, dictGet]
  · have hsome : (dictGet (analyze_invoice_with_claude s).reasoning k).isSome = false := by
      unfold analyze_invoice_with_claude
      simp only [step_confcurrency_pres, step_currency_reas, step_subtotal_reas,
        step_iva_reas, step_total_reas, step_due_reas, step_docdate_reas,
        step_cae_reas, step_type_reas, step_invoice_reas, step_name_reas,
        step_cuit_reas]
      simp [h1, h2, h3, h4, h5, h6, h7, h8, h9, h10, h11, initResult, dictGet]
    cases hd : dictGet (analyze_invoice_with_claude s).reasoning k
    · rfl
    · rw [hd] at hsome
      simp at hsome

/-! ### Arithmetic of `parse_amount` on digit strings -/

theorem dropWhile_all_false {α : Type} (p : α → Bool) (l : List α)
    (h : ∀ c ∈ l, p c = false) : l.dropWhile p = l := by
  cases l with
  | nil => rfl
  | cons c t => simp [List.dropWhile_cons, h c (by simp)]

theorem takeWhile_all_true {α : Type} (p : α → Bool) (l : List α)
    (h : ∀ c ∈ l, p c = true) : l.takeWhile p = l := by
  induction l with
  | nil => rfl
  | cons c t ih =>
      rw [List.takeWhile_cons, if_pos (h c (by simp)),
        ih (fun x hx => h x (by simp [hx]))]

theorem dropWhile_all_true {α : Type} (p : α → Bool) (l : List α)
    (h : ∀ c ∈ l, p c = true) : l.dropWhile p = [] := by
  induction l with
  | nil => rfl
  | cons c t ih =>
      rw [List.dropWhile_cons, if_pos (h c (by simp)),
        ih (fun x hx => h x (by simp [hx]))]

theorem stripWs_eq_self (l : List Char) (h : ∀ c ∈ l, isWs c = false) :
    stripWs l = l := by
  unfold stripWs
  rw [dropWhile_all_false _ _ h,
    dropWhile_all_false _ _ (fun c hc => h c (List.mem_reverse.mp hc)),
    List.reverse_reverse]

theorem takeWhile_append_not {α : Type} (p : α → Bool) (a : List α) (b : α)
    (t : List α) (ha : ∀ c ∈ a, p c = true) (hb : p b = false) :
    (a ++ b :: t).takeWhile p = a := by
  induction a with
  | nil => simp [List.takeWhile_cons, hb]
  | cons c a' ih =>
      rw [List.cons_append, List.takeWhile_cons, if_pos (ha c (by simp)),
        ih (fun x hx => ha x (by simp [hx]))]

theorem dropWhile_append_not {α : Type} (p : α → Bool) (a : List α) (b : α)
    (t : List α) (ha : ∀ c ∈ a, p c = true) (hb : p b = false) :
    (a ++ b :: t).dropWhile p = b :: t := by
  induction a with
  | nil => simp [List.dropWhile_cons, hb]
  | cons c a' ih =>
      rw [List.cons_append, List.dropWhile_cons, if_pos (ha c (by simp)),
        ih (fun x hx => ha x (by simp [hx]))]

theorem natVal_go (b : List Char) :
    ∀ n : ℕ, b.foldl (fun a c => 10 * a + (c.toNat - 48)) n =
      n * 10 ^ b.length + natVal b := by
  induction b with
  | nil => intro n; simp [natVal]
  | cons c t ih =>
      intro n
      simp only [List.foldl_cons, List.length_cons]
      rw [ih]
      have h2 : natVal (c :: t) = (10 * 0 + (c.toNat - 48)) * 10 ^ t.length + natVal t := by
        unfold natVal
        simp only [List.foldl_cons]
        rw [ih]
        rfl
      rw [h2]
      ring

theorem natVal_append (a b : List Char) :
    natVal (a ++ b) = natVal a * 10 ^ b.length + natVal b := by
  have h := natVal_go b (natVal a)
  unfold natVal
  rw [List.foldl_append]
  exact h

theorem isDig_not_ws (c : Char) (h : isDig c = true) : isWs c = false := by
  simp [isDig] at h
  simp [isWs]
  omega

theorem isDig_ne (c d : Char) (h : isDig c = true) (hd : isDig d = false) :
    c ≠ d := by
  intro e
  subst e
  rw [h] at hd
  exact Bool.noConfusion hd

theorem pyFloat_digits (a : List Char) (ha : ∀ c ∈ a, isDig c = true)
    (hne : a ≠ []) : pyFloat a = some ((natVal a : ℚ)) := by
  match a, hne with
  | c0 :: a', _ =>
    have h0 : isDig c0 = true := ha c0 (by simp)
    have hplus : ¬ c0 = '+' := isDig_ne c0 '+' h0 (by decide)
    have hminus : ¬ c0 = '-' := isDig_ne c0 '-' h0 (by decide)
    have hstrip : stripWs (c0 :: a') = c0 :: a' :=
      stripWs_eq_self _ (fun c hc => isDig_not_ws c (ha c hc))
    have htk : (c0 :: a').takeWhile isDig = c0 :: a' := takeWhile_all_true _ _ ha
    have hdp : (c0 :: a').dropWhile isDig = [] := dropWhile_all_true _ _ ha
    unfold pyFloat
    simp [hstrip, hplus, hminus, htk, hdp]

theorem pyFloat_frac (a b : List Char) (ha : ∀ c ∈ a, isDig c = true)
    (hb : ∀ c ∈ b, isDig c = true) (hbne : b ≠ []) :
    pyFloat (a ++ '.' :: b) = some ((natVal a : ℚ) + natVal b / 10 ^ b.length) := by
  have hnws : ∀ c ∈ a ++ '.' :: b, isWs c = false := by
    intro c hc
    rcases List.mem_append.mp hc with h | h
    · exact isDig_not_ws c (ha c h)
    · rcases List.mem_cons.mp h with h | h
      · subst h; decide
      · exact isDig_not_ws c (hb c h)
  have hstrip : stripWs (a ++ '.' :: b) = a ++ '.' :: b := stripWs_eq_self _ hnws
  have htk : (a ++ '.' :: b).takeWhile isDig = a :=
    takeWhile_append_not _ _ _ _ ha (by decide)
  have hdp : (a ++ '.' :: b).dropWhile isDig = '.' :: b :=
    dropWhile_append_not _ _ _ _ ha (by decide)
  have htkb : b.takeWhile isDig = b := takeWhile_all_true _ _ hb
  have hdpb : b.dropWhile isDig = [] := dropWhile_all_true _ _ hb
  match a with
  | [] =>
      unfold pyFloat
      simp at hstrip htk hdp
      simp [hstrip, htk, hdp, htkb, hdpb, hbne, natVal]
  | c0 :: a' =>
      have h0 : isDig c0 = true := ha c0 (by simp)
      have hplus : ¬ c0 = '+' := isDig_ne c0 '+' h0 (by decide)
      have hminus : ¬ c0 = '-' := isDig_ne c0 '-' h0 (by decide)
      simp only [List.cons_append] at hstrip htk hdp
      unfold pyFloat
      simp [hstrip, hplus, hminus, htk, hdp, htkb, hdpb, hbne]

theorem parse_amount_digits (s : List Char)
    (h : ∀ c ∈ cleanAmount s, isDig c = true) (h2 : 2 ≤ (cleanAmount s).length) :
    parse_amount s = (natVal (cleanAmount s) : ℚ) / 100 := by
  have hfront : ∀ c ∈ (cleanAmount s).take ((cleanAmount s).length - 2), isDig c = true :=
    fun c hc => h c (List.take_subset _ _ hc)
  have hback : ∀ c ∈ (cleanAmount s).drop ((cleanAmount s).length - 2), isDig c = true :=
    fun c hc => h c (List.drop_subset _ _ hc)
  have hlen : ((cleanAmount s).drop ((cleanAmount s).length - 2)).length = 2 := by
    rw [List.length_drop]; omega
  have hbne : (cleanAmount s).drop ((cleanAmount s).length - 2) ≠ [] := by
    intro e; rw [e] at hlen; simp at hlen
  unfold parse_amount parse_amount_attempt
  rw [if_pos h2, pyFloat_frac _ _ hfront hback hbne]
  simp only [Option.getD_some]
  have hsplit : natVal (cleanAmount s) =
      natVal ((cleanAmount s).take ((cleanAmount s).length - 2)) * 10 ^ 2 +
        natVal ((cleanAmount s).drop ((cleanAmount s).length - 2)) := by
    conv_lhs => rw [← List.take_append_drop ((cleanAmount s).length - 2) (cleanAmount s)]
    rw [natVal_append, hlen]
  rw [hlen, hsplit]
  push_cast
  field_simp
  ring

theorem parse_amount_short (s : List Char)
    (h : ∀ c ∈ cleanAmount s, isDig c = true) (h2 : (cleanAmount s).length < 2) :
    parse_amount s = (natVal (cleanAmount s) : ℚ) := by
  have h2' : ¬ 2 ≤ (cleanAmount s).length := by omega
  unfold parse_amount parse_amount_attempt
  rw [if_neg h2']
  cases hcl : cleanAmount s with
  | nil => simp [pyFloat, stripWs, natVal]
  | cons c t =>
      cases t with
      | nil =>
          rw [hcl] at h
          rw [pyFloat_digits [c] h (by simp)]
          simp
      | cons d t2 =>
          rw [hcl] at h2
          simp at h2
          omega

theorem parse_amount_congr (s t : List Char) (h : cleanAmount s = cleanAmount t) :
    parse_amount s = parse_amount t := by
  unfold parse_amount parse_amount_attempt
  rw [h]

theorem cleanAmount_swap (s : List Char) :
    cleanAmount (s.map swapSep) = cleanAmount s := by
  induction s with
  | nil => rfl
  | cons c t ih =>
      by_cases h1 : c = '.'
      · subst h1; simp [cleanAmount, swapSep] at ih ⊢; exact ih
      · by_cases h2 : c = ','
        · subst h2; simp [cleanAmount, swapSep] at ih ⊢; exact ih
        · have hs : swapSep c = c := by simp [swapSep, h1, h2]
          simp [cleanAmount, hs, h1, h2] at ih ⊢
          exact ih

theorem parse_amount_example1 : parse_amount "9.136,40".toList = 9136.40 := by
  have hc : cleanAmount "9.136,40".toList = "913640".toList := by decide
  rw [parse_amount_digits _ (by decide) (by decide), hc,
    show natVal "913640".toList = 913640 from by decide]
  norm_num

theorem parse_amount_example2 : parse_amount "abc".toList = 0 := by
  have h1 : parse_amount_attempt "abc".toList = none := by decide
  unfold parse_amount
  rw [h1]
  rfl

theorem parse_amount_example3 : parse_amount "".toList = 0 := by
  have h1 : parse_amount_attempt "".toList = none := by decide
  unfold parse_amount
  rw [h1]
  rfl

/-! ### `str.split` lemmas for the date and invoice-number claims -/

theorem splitChar_no_sep (sep : Char) (a : List Char) (h : sep ∉ a) :
    splitChar sep a = [a] := by
  induction a with
  | nil => rfl
  | cons c t ih =>
      have hc : ¬ c = sep := fun e => h (e ▸ List.mem_cons_self c t)
      have ht : sep ∉ t := fun e => h (List.mem_cons_of_mem c e)
      simp [splitChar, hc, ih ht]

theorem splitChar_append (sep : Char) (a rest : List Char) (h : sep ∉ a) :
    splitChar sep (a ++ sep :: rest) = a :: splitChar sep rest := by
  induction a with
  | nil => simp [splitChar]
  | cons c t ih =>
      have hc : ¬ c = sep := fun e => h (e ▸ List.mem_cons_self c t)
      have ht : sep ∉ t := fun e => h (List.mem_cons_of_mem c e)
      simp only [List.cons_append, splitChar, List.append_eq, ih ht]
      simp [hc]

/-! ### Shape of the invoice-number capture -/

theorem capAccepts_lit (l cap : List Char) : ¬ CapAccepts (Re.lit l) cap := by
  induction l with
  | nil => simp [Re.lit, CapAccepts]
  | cons c t ih => simp [Re.lit, CapAccepts, Re.chr]; exact ih

theorem capAccepts_plus (p : Char → Bool) (cap : List Char) :
    ¬ CapAccepts (Re.plus p) cap := by
  simp [Re.plus, CapAccepts]

theorem capAccepts_chr (c : Char) (cap : List Char) :
    ¬ CapAccepts (Re.chr c) cap := by
  simp [Re.chr, CapAccepts]

theorem cap_invoice_shape (cap : List Char) (h : CapAccepts invoicePat cap) :
    ∃ d1 d2, cap = d1 ++ '-' :: d2 ∧ d1 ≠ [] ∧ d2 ≠ [] ∧
      (∀ c ∈ d1, isDig c = true) ∧ (∀ c ∈ d2, isDig c = true) := by
  unfold invoicePat at h
  simp only [CapAccepts, capAccepts_lit, capAccepts_plus, capAccepts_chr,
    false_or, or_false] at h
  simp only [Accepts, Re.plus, Re.chr] at h
  obtain ⟨u, v, rfl, hu, hv⟩ := h
  obtain ⟨a, b, rfl, ⟨c1, rfl, hc1⟩, hb⟩ := hu
  obtain ⟨u2, v2, rfl, ⟨cd, rfl, hcd⟩, hv2⟩ := hv
  obtain ⟨a3, b3, rfl, ⟨c3, rfl, hc3⟩, hb3⟩ := hv2
  have hcd2 : cd = '-' := by simpa using hcd
  subst hcd2
  refine ⟨c1 :: b, c3 :: b3, by simp, by simp, by simp, ?_, ?_⟩
  · intro x hx
    rcases List.mem_cons.mp hx with rfl | hx
    · exact hc1
    · exact hb x hx
  · intro x hx
    rcases List.mem_cons.mp hx with rfl | hx
    · exact hc3
    · exact hb3 x hx

/-- An option whose `isSome` is `false` is `none`. -/
theorem isSome_false_eq_none {α : Type} (o : Option α) (h : o.isSome = false) :
    o = none := by
  cases o with
  | none => rfl
  | some v => simp at h

/-! ## The claims -/

/-- C2: `parse_amount` strips every `'.'` and `','` (its result depends only
on the stripped string); when the stripped remainder is all digits it
reinterprets the last two digits as cents when at least two characters
remain and as a plain integer otherwise; any failing parse yields `0.0`
(and the function is total, so it never raises); and the three concrete
examples of the spec hold. -/
theorem C2_theorem :
    (∀ s t : List Char, cleanAmount s = cleanAmount t →
      parse_amount s = parse_amount t) ∧
    (∀ s : List Char, (∀ c ∈ cleanAmount s, isDig c = true) →
      2 ≤ (cleanAmount s).length →
      parse_amount s = (natVal (cleanAmount s) : ℚ) / 100) ∧
    (∀ s : List Char, (∀ c ∈ cleanAmount s, isDig c = true) →
      (cleanAmount s).length < 2 →
      parse_amount s = (natVal (cleanAmount s) : ℚ)) ∧
    (∀ s : List Char, parse_amount_attempt s = none → parse_amount s = 0) ∧
    parse_amount "9.136,40".toList = 9136.40 ∧
    parse_amount "abc".toList = 0 ∧
    parse_amount "".toList = 0 :=
  ⟨parse_amount_congr, parse_amount_digits, parse_amount_short,
    fun s h => by unfold parse_amount; rw [h]; rfl,
    parse_amount_example1, parse_amount_example2, parse_amount_example3⟩

/-- C2 witness: the cents rule evaluated at concrete inputs. -/
theorem C2_witness :
    parse_amount "1234".toList = 1234 / 100 ∧ parse_amount "7".toList = 7 := by
  constructor
  · have h := C2_theorem.2.1 "1234".toList (by decide) (by decide)
    rw [h, show natVal (cleanAmount "1234".toList) = 1234 from by decide]
    norm_num
  · have h := C2_theorem.2.2.1 "7".toList (by decide) (by decide)
    rw [h, show natVal (cleanAmount "7".toList) = 7 from by decide]
    norm_num

/-- C3 counterexample: on the malformed input `"a/b/c"` (three parts, all
non-numeric) `convert_date_format` does not return the original string:
it reassembles `"c-0b-0a"`. -/
theorem C3_counterexample :
    convert_date_format "a/b/c".toList = "c-0b-0a".toList ∧
    convert_date_format "a/b/c".toList ≠ "a/b/c".toList := by
  exact ⟨by decide, by decide⟩

/-- C3 (amended): whenever the input splits on `'/'` into exactly three
parts — numeric or not — `convert_date_format` reassembles them as
`year-zfill(month)-zfill(day)`; and when the number of parts is not three
it returns the input unchanged (without raising; the function is total).
The original claim's "returns the original string unchanged on non-numeric
parts" is refuted by `C3_counterexample`. -/
theorem C3_theorem :
    (∀ d m y : List Char, '/' ∉ d → '/' ∉ m → '/' ∉ y →
      convert_date_format (d ++ '/' :: (m ++ '/' :: y)) =
        y ++ '-' :: (zfill 2 m ++ '-' :: zfill 2 d)) ∧
    (∀ s : List Char, (splitChar '/' s).length ≠ 3 →
      convert_date_format s = s) := by
  constructor
  · intro d m y hd hm hy
    unfold convert_date_format
    rw [splitChar_append '/' d _ hd, splitChar_append '/' m _ hm,
      splitChar_no_sep '/' y hy]
  · intro s hlen
    unfold convert_date_format
    cases hsp : splitChar '/' s with
    | nil => rfl
    | cons a t1 =>
        cases t1 with
        | nil => rfl
        | cons b t2 =>
            cases t2 with
            | nil => rfl
            | cons c t3 =>
                cases t3 with
                | nil => exact absurd (by rw [hsp]; rfl) hlen
                | cons d t4 => rfl

/-- C3 witness: the valid unpadded date of the spec, and a no-separator
input returned unchanged. -/
theorem C3_witness :
    convert_date_format "22/8/2023".toList = "2023-08-22".toList ∧
    convert_date_format "20230822".toList = "20230822".toList := by
  constructor
  · have h := C3_theorem.1 "22".toList "8".toList "2023".toList
      (by decide) (by decide) (by decide)
    rw [show ("22/8/2023".toList) =
        "22".toList ++ '/' :: ("8".toList ++ '/' :: "2023".toList) from by decide,
      h]
    decide
  · exact C3_theorem.2 "20230822".toList (by decide)

/-- C4 counterexample: the normalization rule is not idempotent on all of
`x ≥ 0`: at `x = 150` it yields `1.5`, and a second application yields
`0.015 ≠ 1.5` (so the first result also fails to lie in `[0,1]`). -/
theorem C4_counterexample :
    (0 : ℚ) ≤ 150 ∧
    ¬ (normalize_confidence (normalize_confidence 150) =
        normalize_confidence 150) ∧
    ¬ (normalize_confidence 150 ≤ 1) := by
  refine ⟨by norm_num, ?_, ?_⟩
  · unfold normalize_confidence
    rw [if_neg (by norm_num : ¬ (150 : ℚ) ≤ 1)]
    rw [if_neg (by norm_num : ¬ (150 : ℚ) / 100 ≤ 1)]
    norm_num
  · unfold normalize_confidence
    rw [if_neg (by norm_num : ¬ (150 : ℚ) ≤ 1)]
    norm_num

/-- C4 (amended): the shared confidence-normalization rule is idempotent
and lands in `[0,1]` for every `0 ≤ x ≤ 100` (the range producers actually
use: fractions or percentages); `normalize(98) = 0.98` and
`normalize(0.98) = 0.98`.  Unrestricted idempotence over all `x ≥ 0` is
refuted by `C4_counterexample` at `x = 150`. -/
theorem C4_theorem :
    (∀ x : ℚ, 0 ≤ x → x ≤ 100 →
      normalize_confidence (normalize_confidence x) = normalize_confidence x ∧
      0 ≤ normalize_confidence x ∧ normalize_confidence x ≤ 1) ∧
    normalize_confidence 98 = 0.98 ∧ normalize_confidence 0.98 = 0.98 := by
  refine ⟨?_, ?_, ?_⟩
  · intro x h0 h100
    by_cases hx : x ≤ 1
    · have e : normalize_confidence x = x := by
        unfold normalize_confidence; rw [if_pos hx]
      rw [e]
      exact ⟨e, h0, hx⟩
    · have e : normalize_confidence x = x / 100 := by
        unfold normalize_confidence; rw [if_neg hx]
      have hle : x / 100 ≤ 1 := by
        rw [div_le_one (by norm_num : (0 : ℚ) < 100)]
        exact h100
      have e2 : normalize_confidence (x / 100) = x / 100 := by
        unfold normalize_confidence; rw [if_pos hle]
      rw [e, e2]
      exact ⟨rfl, div_nonneg h0 (by norm_num), hle⟩
  · unfold normalize_confidence
    rw [if_neg (by norm_num : ¬ (98 : ℚ) ≤ 1)]
    norm_num
  · unfold normalize_confidence
    rw [if_pos (by norm_num : (0.98 : ℚ) ≤ 1)]

/-- C4 witness: the amended idempotence and range at `x = 50`. -/
theorem C4_witness :
    normalize_confidence (normalize_confidence 50) = normalize_confidence 50 ∧
    normalize_confidence 50 ≤ 1 := by
  have h := C4_theorem.1 50 (by norm_num) (by norm_num)
  exact ⟨h.1, h.2.2⟩

/-- C10: `parse_amount` is invariant under exchanging the roles of `'.'`
and `','` in its input, since both characters are stripped before any
other processing; so US-style and Argentine-style groupings of the same
digits parse alike. -/
theorem C10_theorem (s : List Char) :
    parse_amount (s.map swapSep) = parse_amount s :=
  parse_amount_congr _ _ (cleanAmount_swap s)

/-- C6: `prepare_final_json` is total — on every input record (the empty
one included) the payload carries exactly the fixed schema's keys, each
schema-nullable key defaults to `null` when the field is absent, `items`
defaults to the empty list, and the static constants are
`exchangeType = "1"`, `active = true`, `hasPo = false`. -/
theorem C6_theorem (data : List (String × JVal)) :
    (prepare_final_json data).map Prod.fst =
      ["supplier", "client", "currency", "currencySymbol", "invoiceType",
       "invoiceNumber", "pointSale", "documentDate", "dueDate", "amount",
       "iva", "amountGrav", "amountNoGrav", "amountExen", "cae", "taxCode",
       "exchangeType", "active", "hasPo", "items"] ∧
    (dictGet data "invoiceType" = none →
      dictGet (prepare_final_json data) "invoiceType" = some .null) ∧
    (dictGet data "invoiceNumber" = none →
      dictGet (prepare_final_json data) "invoiceNumber" = some .null) ∧
    (dictGet data "pointSale" = none →
      dictGet (prepare_final_json data) "pointSale" = some .null) ∧
    (dictGet data "documentDate" = none →
      dictGet (prepare_final_json data) "documentDate" = some .null) ∧
    (dictGet data "dueDate" = none →
      dictGet (prepare_final_json data) "dueDate" = some .null) ∧
    (dictGet data "amount" = none →
      dictGet (prepare_final_json data) "amount" = some .null) ∧
    (dictGet data "iva" = none →
      dictGet (prepare_final_json data) "iva" = some .null) ∧
    (dictGet data "amountGrav" = none →
      dictGet (prepare_final_json data) "amountGrav" = some .null) ∧
    (dictGet data "amountNoGrav" = none →
      dictGet (prepare_final_json data) "amountNoGrav" = some .null) ∧
    (dictGet data "amountExen" = none →
      dictGet (prepare_final_json data) "amountExen" = some .null) ∧
    (dictGet data "cae" = none →
      dictGet (prepare_final_json data) "cae" = some .null) ∧
    (dictGet data "taxCode" = none →
      dictGet (prepare_final_json data) "taxCode" = some .null) ∧
    (dictGet data "items" = none →
      dictGet (prepare_final_json data) "items" = some (.arr [])) ∧
    dictGet (prepare_final_json data) "exchangeType" = some (.str "1") ∧
    dictGet (prepare_final_json data) "active" = some (.bool true) ∧
    dictGet (prepare_final_json data) "hasPo" = some (.bool false) := by
  refine ⟨rfl, fun h => ?_, fun h => ?_, fun h => ?_, fun h => ?_, fun h => ?_,
    fun h => ?_, fun h => ?_, fun h => ?_, fun h => ?_, fun h => ?_,
    fun h => ?_, fun h => ?_, fun h => ?_, ?_, ?_, ?_⟩ <;>
    simp [prepare_final_json, jget, dictGet, *]

/-- C6 witness: the entirely empty record still yields a complete payload. -/
theorem C6_witness :
    dictGet (prepare_final_json []) "invoiceType" = some .null ∧
    dictGet (prepare_final_json []) "items" = some (.arr []) ∧
    dictGet (prepare_final_json []) "exchangeType" = some (.str "1") := by
  have h := C6_theorem []
  exact ⟨h.2.1 rfl, h.2.2.2.2.2.2.2.2.2.2.2.2.2.1 rfl,
    h.2.2.2.2.2.2.2.2.2.2.2.2.2.2.1⟩

/-- C7: whenever the raw text contains the substring `"USD"` the fallback
extractor classifies the currency as `USD` with symbol `US$` (the USD check
precedes the ARS check), and on every text whatsoever it attaches the fixed
confidence constant `0.85` to the `currency` key. -/
theorem C7_theorem :
    (∀ s : String, containsSub "USD".toList s.toList = true →
      (analyze_invoice_with_claude s).currency = "USD".toList ∧
      (analyze_invoice_with_claude s).currencySymbol = "US$".toList) ∧
    (∀ s : String,
      dictGet (analyze_invoice_with_claude s).confidence "currency" =
        some 0.85) := by
  constructor
  · intro s h
    have h2 : containsSub ['U', 'S', 'D'] s.data = true := h
    constructor
    · rw [analyze_currency, if_pos (by simp [h2])]
    · rw [analyze_currencySymbol, if_pos (by simp [h2])]
  · intro s
    exact analyze_conf_currency s

/-- C7 witness: a text containing both `"USD"` and `"CUIT"` is classified
as USD. -/
theorem C7_witness :
    (analyze_invoice_with_claude "CUIT USD").currency = "USD".toList ∧
    (analyze_invoice_with_claude "CUIT USD").currencySymbol = "US$".toList ∧
    dictGet (analyze_invoice_with_claude "CUIT USD").confidence "currency" =
      some 0.85 := by
  have h := C7_theorem.1 "CUIT USD" (by decide)
  have h2 := C7_theorem.2 "CUIT USD"
  exact ⟨h.1, h.2, h2⟩

/-- C8: in every fallback-extractor record, a present `pointSale` forces a
present `invoiceNumber`, and `pointSale` is exactly the part of
`invoiceNumber` before the first `'-'`. -/
theorem C8_theorem (s : String) (p : List Char)
    (h : (analyze_invoice_with_claude s).pointSale = some p) :
    ∃ n, (analyze_invoice_with_claude s).invoiceNumber = some n ∧
      p = n.takeWhile (fun c => !(c = '-')) := by
  rw [analyze_pointSale] at h
  cases hm : reSearch invoicePat (s.data.map lowerChar) with
  | none => rw [hm] at h; exact absurd h (by simp)
  | some c =>
      rw [hm] at h
      rcases reSearch_sound _ _ _ hm with hc0 | hcap
      · subst hc0
        simp [splitChar] at h
      · obtain ⟨d1, d2, rfl, hne1, hne2, hd1, hd2⟩ := cap_invoice_shape c hcap
        have hnm1 : '-' ∉ d1 := fun hm1 => absurd (hd1 '-' hm1) (by decide)
        have hnm2 : '-' ∉ d2 := fun hm2 => absurd (hd2 '-' hm2) (by decide)
        have hsp : splitChar '-' (d1 ++ '-' :: d2) = [d1, d2] := by
          rw [splitChar_append '-' d1 d2 hnm1, splitChar_no_sep '-' d2 hnm2]
        have h2 : (if (splitChar '-' (d1 ++ '-' :: d2)).length = 2 then
            some ((splitChar '-' (d1 ++ '-' :: d2)).headD []) else none) =
              some p := h
        rw [hsp] at h2
        simp at h2
        refine ⟨d1 ++ '-' :: d2, by rw [analyze_invoiceNumber, hm], ?_⟩
        rw [takeWhile_append_not _ d1 '-' d2
          (fun x hx => by simp [isDig_ne x '-' (hd1 x hx) (by decide)])
          (by decide)]
        exact h2.symm

/-- C8 witness: the end-to-end example record, whose `pointSale` is
`"1305"`. -/
theorem C8_witness :
    ∃ n, (analyze_invoice_with_claude exampleText).invoiceNumber = some n ∧
      "1305".toList = n.takeWhile (fun c => !(c = '-')) :=
  C8_theorem exampleText "1305".toList (by decide)

/-- C5 counterexample: on the empty text no rule matches, yet the record
still carries `amount` as `0` and `invoiceType` as `None` (the
initializer's values) rather than omitting them; and a matched literal
zero amount (`"Total a Pagar: 000"`) produces the very same `amount = 0`,
so the field alone cannot distinguish "not found" from "found zero". -/
theorem C5_counterexample :
    reSearch totalPat (("" : String).data.map lowerChar) = none ∧
    (analyze_invoice_with_claude "").amount = 0 ∧
    reSearch codigoPat ("" : String).data = none ∧
    (analyze_invoice_with_claude "").invoiceType = none ∧
    reSearch totalPat (("Total a Pagar: 000" : String).data.map lowerChar) =
      some "000".toList ∧
    (analyze_invoice_with_claude "Total a Pagar: 000").amount = 0 := by
  refine ⟨by decide, ?_, by decide, by decide, by decide, ?_⟩
  · rw [analyze_amount,
      show reSearch totalPat (("" : String).data.map lowerChar) = none from
        by decide]
    rfl
  · rw [analyze_amount,
      show reSearch totalPat (("Total a Pagar: 000" : String).data.map lowerChar) =
        some "000".toList from by decide]
    simp only [Option.map_some', Option.getD_some]
    rw [parse_amount_digits _ (by decide) (by decide),
      show natVal (cleanAmount "000".toList) = 0 from by decide]
    norm_num

/-- C5 (amended): a rule that fails to match leaves its confidence and
reasoning entries entirely absent from the `confidence`/`reasoning` dicts,
while the corresponding record field keeps the initializer's value (`None`
for the string fields, `0` for the amount fields) — it is via the
confidence map, not the field, that "not found" is distinguishable from
"found with value zero".  The original claim's "the field is entirely
absent — not present as null and not present as zero" is refuted by
`C5_counterexample`. -/
theorem C5_theorem (s : String) :
    (reSearch cuitPat s.data = none →
      (analyze_invoice_with_claude s).supplier.cuit = none ∧
      dictGet (analyze_invoice_with_claude s).confidence "supplier_cuit" = none ∧
      dictGet (analyze_invoice_with_claude s).reasoning "supplier_cuit" = none) ∧
    (reSearch namePat s.data = none →
      (analyze_invoice_with_claude s).supplier.name = none ∧
      dictGet (analyze_invoice_with_claude s).confidence "supplier_name" = none ∧
      dictGet (analyze_invoice_with_claude s).reasoning "supplier_name" = none) ∧
    (reSearch invoicePat (s.data.map lowerChar) = none →
      (analyze_invoice_with_claude s).invoiceNumber = none ∧
      (analyze_invoice_with_claude s).pointSale = none ∧
      dictGet (analyze_invoice_with_claude s).confidence "invoice_number" = none ∧
      dictGet (analyze_invoice_with_claude s).reasoning "invoice_number" = none) ∧
    (reSearch codigoPat s.data = none →
      (analyze_invoice_with_claude s).invoiceType = none ∧
      dictGet (analyze_invoice_with_claude s).confidence "invoice_type" = none ∧
      dictGet (analyze_invoice_with_claude s).reasoning "invoice_type" = none) ∧
    (reSearch caePat (s.data.map lowerChar) = none →
      (analyze_invoice_with_claude s).cae = none ∧
      dictGet (analyze_invoice_with_claude s).confidence "cae" = none ∧
      dictGet (analyze_invoice_with_claude s).reasoning "cae" = none) ∧
    (reSearch datePat (s.data.map lowerChar) = none →
      (analyze_invoice_with_claude s).documentDate = none ∧
      dictGet (analyze_invoice_with_claude s).confidence "document_date" = none ∧
      dictGet (analyze_invoice_with_claude s).reasoning "document_date" = none) ∧
    (reSearch duePat (s.data.map lowerChar) = none →
      (analyze_invoice_with_claude s).dueDate = none ∧
      dictGet (analyze_invoice_with_claude s).confidence "due_date" = none ∧
      dictGet (analyze_invoice_with_claude s).reasoning "due_date" = none) ∧
    (reSearch totalPat (s.data.map lowerChar) = none →
      (analyze_invoice_with_claude s).amount = 0 ∧
      dictGet (analyze_invoice_with_claude s).confidence "amount" = none ∧
      dictGet (analyze_invoice_with_claude s).reasoning "amount" = none) ∧
    (reSearch ivaPat (s.data.map lowerChar) = none →
      (analyze_invoice_with_claude s).iva = 0 ∧
      dictGet (analyze_invoice_with_claude s).confidence "iva" = none ∧
      dictGet (analyze_invoice_with_claude s).reasoning "iva" = none) ∧
    (reSearch subtotalPat (s.data.map lowerChar) = none →
      (analyze_invoice_with_claude s).amountGrav = 0 ∧
      dictGet (analyze_invoice_with_claude s).confidence "amount_grav" = none ∧
      dictGet (analyze_invoice_with_claude s).reasoning "amount_grav" = none) := by
  refine ⟨fun h => ⟨?_, ?_, ?_⟩, fun h => ⟨?_, ?_, ?_⟩,
    fun h => ⟨?_, ?_, ?_, ?_⟩, fun h => ⟨?_, ?_, ?_⟩, fun h => ⟨?_, ?_, ?_⟩,
    fun h => ⟨?_, ?_, ?_⟩, fun h => ⟨?_, ?_, ?_⟩, fun h => ⟨?_, ?_, ?_⟩,
    fun h => ⟨?_, ?_, ?_⟩, fun h => ⟨?_, ?_, ?_⟩⟩
  · rw [analyze_cuit, h]
  · rw [analyze_conf_cuit, h]; rfl
  · exact isSome_false_eq_none _ (by rw [analyze_reas_cuit, h]; rfl)
  · rw [analyze_name, h]; rfl
  · rw [analyze_conf_name, h]; rfl
  · exact isSome_false_eq_none _ (by rw [analyze_reas_name, h]; rfl)
  · rw [analyze_invoiceNumber, h]
  · rw [analyze_pointSale, h]
  · rw [analyze_conf_invoice, h]; rfl
  · exact isSome_false_eq_none _ (by rw [analyze_reas_invoice, h]; rfl)
  · rw [analyze_invoiceType, h]; rfl
  · rw [analyze_conf_type, h]; rfl
  · exact isSome_false_eq_none _ (by rw [analyze_reas_type, h]; rfl)
  · rw [analyze_cae, h]
  · rw [analyze_conf_cae, h]; rfl
  · exact isSome_false_eq_none _ (by rw [analyze_reas_cae, h]; rfl)
  · rw [analyze_documentDate, h]; rfl
  · rw [analyze_conf_docdate, h]; rfl
  · exact isSome_false_eq_none _ (by rw [analyze_reas_docdate, h]; rfl)
  · rw [analyze_dueDate, h]; rfl
  · rw [analyze_conf_due, h]; rfl
  · exact isSome_false_eq_none _ (by rw [analyze_reas_due, h]; rfl)
  · rw [analyze_amount, h]; rfl
  · rw [analyze_conf_amount, h]; rfl
  · exact isSome_false_eq_none _ (by rw [analyze_reas_amount, h]; rfl)
  · rw [analyze_iva, h]; rfl
  · rw [analyze_conf_iva, h]; rfl
  · exact isSome_false_eq_none _ (by rw [analyze_reas_iva, h]; rfl)
  · rw [analyze_amountGrav, h]; rfl
  · rw [analyze_conf_grav, h]; rfl
  · exact isSome_false_eq_none _ (by rw [analyze_reas_grav, h]; rfl)

/-- C5 witness: the amended behaviour at a text matching no rule. -/
theorem C5_witness :
    (analyze_invoice_with_claude "x").amount = 0 ∧
    dictGet (analyze_invoice_with_claude "x").confidence "amount" = none ∧
    dictGet (analyze_invoice_with_claude "x").reasoning "amount" = none := by
  have h := C5_theorem "x"
  exact h.2.2.2.2.2.2.2.1 (by decide)

/-- C9: every key present in the `confidence` map, and every key present in
the `reasoning` map, corresponds to a populated part of the record: the
`Option`-valued fields are `some`, the amount fields were written by their
(matching) rule, and `currency` is always set. -/
theorem C9_theorem (s : String) (k : String)
    (h : (dictGet (analyze_invoice_with_claude s).confidence k).isSome = true ∨
         (dictGet (analyze_invoice_with_claude s).reasoning k).isSome = true) :
    populatedFor s k := by
  unfold populatedFor
  by_cases h1 : k = "supplier_cuit"
  · subst h1
    rw [if_pos rfl, analyze_cuit]
    rcases h with h | h
    · rw [analyze_conf_cuit] at h; simpa using h
    · rwa [analyze_reas_cuit] at h
  rw [if_neg h1]
  by_cases h2 : k = "supplier_name"
  · subst h2
    rw [if_pos rfl, analyze_name]
    rcases h with h | h
    · rw [analyze_conf_name] at h; simpa using h
    · rw [analyze_reas_name] at h; simpa using h
  rw [if_neg h2]
  by_cases h3 : k = "invoice_number"
  · subst h3
    rw [if_pos rfl, analyze_invoiceNumber]
    rcases h with h | h
    · rw [analyze_conf_invoice] at h; simpa using h
    · rwa [analyze_reas_invoice] at h
  rw [if_neg h3]
  by_cases h4 : k = "invoice_type"
  · subst h4
    rw [if_pos rfl, analyze_invoiceType]
    rcases h with h | h
    · rw [analyze_conf_type] at h; simpa using h
    · rw [analyze_reas_type] at h; simpa using h
  rw [if_neg h4]
  by_cases h5 : k = "cae"
  · subst h5
    rw [if_pos rfl, analyze_cae]
    rcases h with h | h
    · rw [analyze_conf_cae] at h; simpa using h
    · rwa [analyze_reas_cae] at h
  rw [if_neg h5]
  by_cases h6 : k = "document_date"
  · subst h6
    rw [if_pos rfl, analyze_documentDate]
    rcases h with h | h
    · rw [analyze_conf_docdate] at h; simpa using h
    · rw [analyze_reas_docdate] at h; simpa using h
  rw [if_neg h6]
  by_cases h7 : k = "due_date"
  · subst h7
    rw [if_pos rfl, analyze_dueDate]
    rcases h with h | h
    · rw [analyze_conf_due] at h; simpa using h
    · rw [analyze_reas_due] at h; simpa using h
  rw [if_neg h7]
  by_cases h8 : k = "amount"
  · subst h8
    rw [if_pos rfl]
    rcases h with h | h
    · rw [analyze_conf_amount] at h; simpa using h
    · rwa [analyze_reas_amount] at h
  rw [if_neg h8]
  by_cases h9 : k = "iva"
  · subst h9
    rw [if_pos rfl]
    rcases h with h | h
    · rw [analyze_conf_iva] at h; simpa using h
    · rwa [analyze_reas_iva] at h
  rw [if_neg h9]
  by_cases h10 : k = "amount_grav"
  · subst h10
    rw [if_pos rfl]
    rcases h with h | h
    · rw [analyze_conf_grav] at h; simpa using h
    · rwa [analyze_reas_grav] at h
  rw [if_neg h10]
  by_cases h11 : k = "currency"
  · subst h11
    rw [if_pos rfl]
    trivial
  rw [if_neg h11]
  obtain ⟨hc, hr⟩ :=
    analyze_other_keys s k h1 h2 h3 h4 h5 h6 h7 h8 h9 h10 h11
  rcases h with h | h
  · rw [hc] at h; simp at h
  · rw [hr] at h; simp at h

/-- C9 witness: a populated confidence key on the end-to-end example. -/
theorem C9_witness : populatedFor exampleText "amount" :=
  C9_theorem exampleText "amount" (Or.inl (by decide))

set_option maxRecDepth 40000

/-- C1 counterexample: the quantification "for any input text containing
the lines" fails — appending the extra line `"USD"` to a text that still
contains all five trigger lines flips the currency classification away
from `ARS`. -/
theorem C1_counterexample :
    containsSub "CUIT: 30-66328849-7".toList (exampleText ++ "\nUSD").toList = true ∧
    containsSub "Factura Nro. 1305-76453547".toList (exampleText ++ "\nUSD").toList = true ∧
    containsSub "CODIGO 06".toList (exampleText ++ "\nUSD").toList = true ∧
    containsSub "Fecha de Emisión: 22/08/2023".toList (exampleText ++ "\nUSD").toList = true ∧
    containsSub "Total a Pagar: $9,136.40".toList (exampleText ++ "\nUSD").toList = true ∧
    (analyze_invoice_with_claude (exampleText ++ "\nUSD")).currency ≠ "ARS".toList := by
  refine ⟨by decide, by decide, by decide, by decide, by decide, ?_⟩
  rw [analyze_currency]
  decide

/-- C1 (amended): on the spec's end-to-end example text itself (the five
trigger lines joined by newlines) the fallback extractor produces
`supplier.cuit = "30-66328849-7"`, `invoiceNumber = "1305-76453547"`,
`pointSale = "1305"`, `invoiceType = "B"`, `documentDate = "2023-08-22"`,
`amount = 9136.40` and `currency = "ARS"`.  The original claim's universal
quantification over every containing text is refuted by
`C1_counterexample`. -/
theorem C1_theorem :
    (analyze_invoice_with_claude exampleText).supplier.cuit =
      some "30-66328849-7".toList ∧
    (analyze_invoice_with_claude exampleText).invoiceNumber =
      some "1305-76453547".toList ∧
    (analyze_invoice_with_claude exampleText).pointSale = some "1305".toList ∧
    (analyze_invoice_with_claude exampleText).invoiceType = some "B".toList ∧
    (analyze_invoice_with_claude exampleText).documentDate =
      some "2023-08-22".toList ∧
    (analyze_invoice_with_claude exampleText).amount = 9136.40 ∧
    (analyze_invoice_with_claude exampleText).currency = "ARS".toList := by
  refine ⟨by decide, by decide, by decide, by decide, by decide, ?_, by decide⟩
  rw [analyze_amount,
    show reSearch totalPat (exampleText.data.map lowerChar) =
      some "9,136.40".toList from by decide]
  simp only [Option.map_some', Option.getD_some]
  rw [parse_amount_digits _ (by decide) (by decide),
    show natVal (cleanAmount "9,136.40".toList) = 913640 from by decide]
  norm_num
